import Mathlib

/-!
Shallow embedding of the Lux.Aeternum effect-dispatch engine and its
surrounding adapters, translated from the TypeScript sources:

* `src/govee/govee-adapter.ts` — `GoveeAdapter`, `GameDinAdapter`
  (the effect dispatcher / state restorer), and `LightManager`;
* `src/interfaces/adapter.interface.ts` — `BaseLightAdapter`
  (`validateInitialized`, `validateDeviceId`);
* `src/services/sync/profile-sync.service.ts` — `ProfileSyncService.syncAll`.

JavaScript `Map<string, V>` objects are modelled as association lists with
unique keys (`alGet` / `alSet` / `alDelete`), `Map`-style in-place device
updates as `alUpdate`.  Asynchronous execution is single-threaded and
cooperative in the source, so each `async` method is embedded as a pure
state-transformation function; fallible network calls are parametrised by
explicit success oracles (a `Bool` per call), and thrown `AdapterError`s
become `Except` error values.
-/

namespace LuxSpec

/-! ### Association lists modelling JS `Map<string, α>` -/

/-- Lookup in an association list (`Map.get`). -/
def alGet {α : Type} (k : String) : List (String × α) → Option α
  | [] => none
  | p :: l => if p.1 = k then some p.2 else alGet k l

/-- Insert-or-replace (`Map.set`): replaces the entry for an existing key in
place, otherwise appends the binding at the end. -/
def alSet {α : Type} (k : String) (v : α) : List (String × α) → List (String × α)
  | [] => [(k, v)]
  | p :: l => if p.1 = k then (k, v) :: l else p :: alSet k v l

/-- Key removal (`Map.delete`). -/
def alDelete {α : Type} (k : String) : List (String × α) → List (String × α)
  | [] => []
  | p :: l => if p.1 = k then alDelete k l else p :: alDelete k l

/-- In-place update of the value under a key, leaving the map unchanged when
the key is absent (the Govee adapter's `updateDevice` pattern). -/
def alUpdate {α : Type} (k : String) (f : α → α) (l : List (String × α)) :
    List (String × α) :=
  l.map (fun p => if p.1 = k then (p.1, f p.2) else p)

/-- Keys of an association list. -/
def alKeys {α : Type} (l : List (String × α)) : List String := l.map Prod.fst

/-! ### Data model (`device.interface.ts`, `govee-adapter.ts`) -/

/-- Command kinds of `ILightCommand.type`. -/
inductive CmdType
  | turnOn
  | turnOff
  | setColor
  | setBrightness
  | custom
deriving DecidableEq

/-- `ILightCommand`: `{type, deviceId, params}` with the `params` fields
flattened (`params.color`, `params.brightness`). -/
structure LightCommand where
  ctype : CmdType
  deviceId : String
  colorParam : Option String := none
  brightnessParam : Option Int := none
deriving DecidableEq

/-- An effect's command, `Omit<ILightCommand, 'deviceId'>`. -/
structure EffectCommand where
  ctype : CmdType
  colorParam : Option String := none
  brightnessParam : Option Int := none
deriving DecidableEq

/-- Merging the target device into an effect command:
`{...effect.command, deviceId}`. -/
def withDevice (c : EffectCommand) (d : String) : LightCommand :=
  { ctype := c.ctype, deviceId := d, colorParam := c.colorParam,
    brightnessParam := c.brightnessParam }

/-- The observable light state of one device (the fields of `IDevice` the
effect engine reads and writes: `isOn`, `color?`, `brightness?`). -/
structure DeviceState where
  isOn : Bool := true
  color : Option String := none
  brightness : Option Int := none
deriving DecidableEq

/-- A `deviceStates` snapshot entry, `{ color?: string; brightness?: number }`. -/
structure SavedSnapshot where
  color : Option String
  brightness : Option Int
deriving DecidableEq

/-- An `IGameDinEvent`; only the `type` field is consulted by the dispatcher
itself (conditions may inspect the whole event, which we abstract as a
predicate on this structure). -/
structure GameEvent where
  etype : String
deriving DecidableEq

/-- `IGameDinLightEffect`.  TypeScript optional fields keep their `Option`
type where the code distinguishes `undefined` (`priority`, `duration`,
`condition`); `restorePreviousState?: boolean` is used only for truthiness
tests, where `undefined` and `false` coincide, so it is embedded as `Bool`. -/
structure GameEffect where
  eventType : String
  command : EffectCommand
  condition : Option (GameEvent → Bool) := none
  priority : Option Int := none
  duration : Option Int := none
  restorePreviousState : Bool := false

/-- `(effect.priority || 0)` — the comparator's default priority. -/
def effPrio (e : GameEffect) : Int := e.priority.getD 0

/-- `effect.duration && effect.duration > 0` — whether a restoration timer is
scheduled (JS truthiness: `undefined` and `0` are falsy). -/
def effHasTimer (e : GameEffect) : Bool :=
  match e.duration with
  | some d => decide (0 < d)
  | none => false

/-- `!eff.condition || eff.condition(event)` — the per-effect match test used
by `applyEffectsToDevice`. -/
def effMatches (e : GameEffect) (ev : GameEvent) : Bool :=
  match e.condition with
  | none => true
  | some c => c ev

/-- `Math.max(0, Math.min(100, brightness))` — the Govee brightness clamp. -/
def clamp100 (b : Int) : Int := max 0 (min 100 b)

/-- Success semantics of routing one command through the Light Manager down to
an adapter's device cache: `turnOn`/`turnOff` set `isOn`, `setColor` caches the
hex string, `setBrightness` caches the clamped value (per
`GoveeAdapter.setPowerState` / `setColor` / `setBrightness`). -/
def applyCmdRec (cmd : LightCommand) (ds : DeviceState) : DeviceState :=
  match cmd.ctype with
  | .turnOn => { ds with isOn := true }
  | .turnOff => { ds with isOn := false }
  | .setColor =>
    match cmd.colorParam with
    | some c => { ds with color := some c }
    | none => ds
  | .setBrightness =>
    match cmd.brightnessParam with
    | some b => { ds with brightness := some (clamp100 b) }
    | none => ds
  | .custom => ds

/-- Apply a successfully executed command to the world (the union of the
adapters' device caches, keyed by device id). -/
def applyCmdToWorld (cmd : LightCommand) (w : List (String × DeviceState)) :
    List (String × DeviceState) :=
  alUpdate cmd.deviceId (applyCmdRec cmd) w

/-- The `setColor` command built by `LightManager.setColor`. -/
def setColorCmd (d : String) (c : String) : LightCommand :=
  { ctype := .setColor, deviceId := d, colorParam := some c }

/-- The `setBrightness` command built by `LightManager.setBrightness`. -/
def setBrightnessCmd (d : String) (b : Int) : LightCommand :=
  { ctype := .setBrightness, deviceId := d, brightnessParam := some b }

/-! ### The effect registry sort (`GameDinAdapter.addEffect`) -/

/-- One step of the stable descending insertion: an element is placed before
the first existing element of strictly smaller priority, i.e. after all
existing elements of greater-or-equal priority. -/
def insertEffDesc (a : GameEffect) : List GameEffect → List GameEffect
  | [] => [a]
  | b :: l => if effPrio b ≤ effPrio a then a :: b :: l else b :: insertEffDesc a l

/-- Stable sort, descending by `(priority || 0)`: the embedding of
`effects.sort((a, b) => (b.priority || 0) - (a.priority || 0))`, which is a
stable sort per the ECMAScript specification. -/
def sortEffectsDesc : List GameEffect → List GameEffect
  | [] => []
  | a :: l => insertEffDesc a (sortEffectsDesc l)

/-- The list-level body of `addEffect`: push the new effect, then re-sort the
whole array (stably, descending by priority). -/
def addEffectList (l : List GameEffect) (e : GameEffect) : List GameEffect :=
  sortEffectsDesc (l ++ [e])

/-- A registry list built from scratch by a sequence of `addEffect` calls, in
registration order. -/
def registryList (es : List GameEffect) : List GameEffect :=
  es.foldl addEffectList []

/-! ### The GameDin effect dispatcher (`GameDinAdapter`) -/

/-- The mutable state of a `GameDinAdapter` together with the external world
it acts on.  `effects`, `deviceStates` and `activeEffects` are the adapter's
three `Map`s; a pending `activeEffects` timer is represented by the
`restorePreviousState` flag its callback closed over; `world` is the observable
device state behind the Light Manager; `sent` is the trace of commands issued
to `lightManager.executeCommand` / `setColor` / `setBrightness`. -/
structure GDState where
  effects : List (String × List GameEffect)
  deviceStates : List (String × SavedSnapshot)
  activeEffects : List (String × Bool)
  world : List (String × DeviceState)
  sent : List LightCommand

namespace GameDin

/-- `addEffect`: get-or-create the per-event-type array, push, re-sort. -/
def addEffect (e : GameEffect) (s : GDState) : GDState :=
  { s with effects :=
      (alSet e.eventType (addEffectList ((alGet e.eventType s.effects).getD []) e)
        s.effects) }

/-- `removeEffect(eventType, effectIndex)`: splice out the entry at the
positional index when `effects[effectIndex]` exists (effect objects are always
truthy, so the guard is exactly an index-in-range test). -/
def removeEffect (eventType : String) (i : Nat) (s : GDState) : GDState :=
  match alGet eventType s.effects with
  | none => s
  | some effs =>
    if i < effs.length then
      { s with effects :=
          alSet eventType (effs.take i ++ effs.drop (i + 1)) s.effects }
    else s

/-- `clearDeviceEffect`: cancel and forget the pending timer, if any. -/
def clearDeviceEffect (deviceId : String) (s : GDState) : GDState :=
  { s with activeEffects := alDelete deviceId s.activeEffects }

/-- `applyEffectsToDevice(device, effects, event)`.  `ok` is the success
oracle for the `lightManager.executeCommand` call: when it is `false` the call
throws, the `catch` only logs, and — because the `setTimeout` follows the
`await` inside the same `try` — no restoration timer is scheduled. -/
def applyEffectsToDevice (ok : Bool) (ev : GameEvent) (effs : List GameEffect)
    (dev : String × DeviceState) (s : GDState) : GDState :=
  match effs.find? (fun e => effMatches e ev) with
  | none => s
  | some effect =>
    let s1 : GDState :=
      if effect.restorePreviousState && (alGet dev.1 s.deviceStates).isNone then
        { s with deviceStates :=
            (alSet dev.1 { color := dev.2.color, brightness := dev.2.brightness }
              s.deviceStates) }
      else s
    let s2 := clearDeviceEffect dev.1 s1
    let cmd := withDevice effect.command dev.1
    let s3 : GDState := { s2 with sent := s2.sent ++ [cmd] }
    if ok then
      let s4 : GDState := { s3 with world := applyCmdToWorld cmd s3.world }
      if effHasTimer effect then
        { s4 with activeEffects :=
            (alSet dev.1 effect.restorePreviousState s4.activeEffects) }
      else s4
    else s3

/-- The brightness half of `restoreDeviceState`'s `try` block, reached after
the optional `setColor` reissue succeeded: reissue `setBrightness` when the
snapshot holds one, and only delete the snapshot once every reissue has
succeeded (the `deviceStates.delete` sits after the awaits, inside the
`try`). -/
def restoreBrightness (brightOk : Bool) (deviceId : String) (st : SavedSnapshot)
    (s : GDState) : GDState :=
  match st.brightness with
  | some b =>
    let s1 : GDState := { s with sent := s.sent ++ [setBrightnessCmd deviceId b] }
    if brightOk then
      { s1 with world := applyCmdToWorld (setBrightnessCmd deviceId b) s1.world,
                deviceStates := alDelete deviceId s1.deviceStates }
    else s1
  | none => { s with deviceStates := alDelete deviceId s.deviceStates }

/-- `restoreDeviceState(deviceId)`: no-op without a snapshot; otherwise
reissue `setColor` then `setBrightness` for the fields present in the
snapshot, deleting the snapshot only after both succeed.  A thrown reissue is
caught and logged, leaving the snapshot in place.  `colorOk` / `brightOk` are
the success oracles of the two `lightManager` calls. -/
def restoreDeviceState (colorOk brightOk : Bool) (deviceId : String)
    (s : GDState) : GDState :=
  match alGet deviceId s.deviceStates with
  | none => s
  | some st =>
    match st.color with
    | some c =>
      let s1 : GDState := { s with sent := s.sent ++ [setColorCmd deviceId c] }
      if colorOk then
        restoreBrightness brightOk deviceId st
          { s1 with world := applyCmdToWorld (setColorCmd deviceId c) s1.world }
      else s1
    | none => restoreBrightness brightOk deviceId st s

/-- Firing of a scheduled restoration timer: run the callback
(`if (effect.restorePreviousState) await restoreDeviceState(deviceId);
this.clearDeviceEffect(deviceId)`).  With no pending timer nothing fires. -/
def fireTimer (colorOk brightOk : Bool) (deviceId : String) (s : GDState) :
    GDState :=
  match alGet deviceId s.activeEffects with
  | none => s
  | some restoreFlag =>
    let s1 := if restoreFlag then restoreDeviceState colorOk brightOk deviceId s
              else s
    clearDeviceEffect deviceId s1

/-- `handleEvent(event)`: look up the effects for the event type (no-op when
none are registered), fetch the device list once, then apply the effects to
each device in turn; `ok` gives the per-device command success. -/
def handleEvent (ok : String → Bool) (ev : GameEvent) (s : GDState) : GDState :=
  let effs := (alGet ev.etype s.effects).getD []
  if effs.isEmpty then s
  else s.world.foldl (fun st dev => applyEffectsToDevice (ok dev.1) ev effs dev st) s

/-- `dispose()`: clear all pending timers and snapshots. -/
def dispose (s : GDState) : GDState :=
  { s with activeEffects := [], deviceStates := [] }

/-- A run of `handleEvent` calls (successive external events). -/
def runEvents (steps : List (GameEvent × (String → Bool))) (s : GDState) :
    GDState :=
  steps.foldl (fun st p => handleEvent p.2 p.1 st) s

/-- States reachable from a freshly constructed adapter (empty maps; the
world — the devices known to the Light Manager — is arbitrary) through the
adapter's public operations and timer firings. -/
inductive Reachable : GDState → Prop
  | init (w : List (String × DeviceState)) :
      Reachable { effects := [], deviceStates := [], activeEffects := [],
                  world := w, sent := [] }
  | add (e : GameEffect) (s : GDState) : Reachable s → Reachable (addEffect e s)
  | remove (t : String) (i : Nat) (s : GDState) :
      Reachable s → Reachable (removeEffect t i s)
  | handle (ok : String → Bool) (ev : GameEvent) (s : GDState) :
      Reachable s → Reachable (handleEvent ok ev s)
  | fire (colorOk brightOk : Bool) (d : String) (s : GDState) :
      Reachable s → Reachable (fireTimer colorOk brightOk d s)
  | disposed (s : GDState) : Reachable s → Reachable (dispose s)

end GameDin

/-- Comparator order of `addEffect`'s sort: descending by `(priority || 0)`. -/
def prioGE (a b : GameEffect) : Prop := effPrio b ≤ effPrio a



/-! ### Profile sync service (`profile-sync.service.ts`) -/

/-- The sync-relevant state of a `ProfileSyncService`: the `isSyncing` guard
flag and a counter of sync bodies actually begun (there is no queue of
deferred ticks in the source, so a skipped tick leaves the whole state
untouched). -/
structure SyncState where
  isSyncing : Bool
  bodyRuns : Nat
deriving DecidableEq

namespace ProfileSync

/-- The synchronous head of `syncAll`, up to its first `await`: a tick that
finds `isSyncing` set returns immediately (the `Bool` result is `false` for
"skipped"); otherwise the flag is raised and the sync body begins. -/
def syncAllEnter (s : SyncState) : SyncState × Bool :=
  if s.isSyncing then (s, false)
  else ({ isSyncing := true, bodyRuns := s.bodyRuns + 1 }, true)

/-- The tail of `syncAll`: the `catch` only logs, and the `finally` clears
`isSyncing` whether the body succeeded (`ok = true`) or threw. -/
def syncAllFinish (_ok : Bool) (s : SyncState) : SyncState :=
  { s with isSyncing := false }

end ProfileSync

/-! ### Govee adapter (`GoveeAdapter` + `BaseLightAdapter`) -/

/-- `AdapterError.code` values raised on the modelled Govee paths.  Errors
thrown inside `executeCommand`'s `try` (missing parameters, send failures)
are re-wrapped by its `catch` into `COMMAND_EXECUTION_FAILED`; only the
`validateInitialized` / `validateDeviceId` guards throw before the `try`. -/
inductive GoveeErr
  | notInitialized
  | deviceNotFound
  | deviceFetchFailed
  | initializationFailed
  | commandExecutionFailed
deriving DecidableEq

/-- Wire commands handed to `sendDeviceCommand` (the `cmd` payload): power,
color and brightness values as sent to the Govee API.  Color is kept as the
requested hex string (its RGB encoding is a bijective formatting detail of
the wire protocol). -/
inductive GoveeWire
  | turn (power : Bool)
  | color (hex : String)
  | brightness (value : Int)
deriving DecidableEq

/-- `BaseLightAdapter` state: the `isInitialized` flag and the `devices`
cache. -/
structure GoveeState where
  isInitialized : Bool
  devices : List (String × DeviceState)
deriving DecidableEq

namespace Govee

/-- `getDevices()`: no initialization guard — it fetches from the API
(`fetch` is the transport oracle: `none` models a failed request or a
non-200 response code), merges the result into the cache via
`updateDeviceCache`, and returns the list; any failure is wrapped in
`DEVICE_FETCH_FAILED`. -/
def getDevices (fetch : Option (List (String × DeviceState))) (s : GoveeState) :
    Except GoveeErr (GoveeState × List (String × DeviceState)) :=
  match fetch with
  | some devs =>
    .ok ({ s with devices := devs.foldl (fun c p => alSet p.1 p.2 c) s.devices },
      devs)
  | none => .error .deviceFetchFailed

/-- `initialize()`: a second call on an initialized adapter only warns; the
connectivity check is exactly a `getDevices()` call, and only when it
succeeds is `isInitialized` raised.  Failures are wrapped in
`INITIALIZATION_FAILED`. -/
def initAdapter (fetch : Option (List (String × DeviceState))) (s : GoveeState) :
    Except GoveeErr GoveeState :=
  if s.isInitialized then .ok s
  else
    match getDevices fetch s with
    | .ok (s', _) => .ok { s' with isInitialized := true }
    | .error _ => .error .initializationFailed

/-- `getDevice(deviceId)`: `validateInitialized` first (throwing
`NOT_INITIALIZED` before any network call or cache mutation), then the cache,
then a refresh via `getDevices` with a final cache lookup. -/
def getDevice (fetch : Option (List (String × DeviceState))) (deviceId : String)
    (s : GoveeState) : Except GoveeErr (GoveeState × Option DeviceState) :=
  if !s.isInitialized then .error .notInitialized
  else
    match alGet deviceId s.devices with
    | some d => .ok (s, some d)
    | none =>
      match getDevices fetch s with
      | .ok (s', _) => .ok (s', alGet deviceId s'.devices)
      | .error _ => .error .deviceFetchFailed

/-- `executeCommand(command)`: `validateInitialized` and `validateDeviceId`
guards first (raw `NOT_INITIALIZED` / `DEVICE_NOT_FOUND`), then dispatch on
the command type inside a `try` whose `catch` re-wraps every failure as
`COMMAND_EXECUTION_FAILED`.  On success the wire value sent by
`sendDeviceCommand` is returned alongside the optimistically updated cache
(`setBrightness` clamps with `Math.max(0, Math.min(100, brightness))` before
sending and caching).  `sendOk` is the success oracle of the HTTP call; the
trailing `refreshDeviceState` is best-effort and non-throwing, modelled by
its caught-failure (no-op) path. -/
def executeCommand (sendOk : Bool) (cmd : LightCommand) (s : GoveeState) :
    Except GoveeErr (GoveeState × GoveeWire) :=
  if !s.isInitialized then .error .notInitialized
  else if (alGet cmd.deviceId s.devices).isNone then .error .deviceNotFound
  else
    match cmd.ctype with
    | .turnOn =>
      if sendOk then
        .ok ({ s with devices :=
          (alUpdate cmd.deviceId (fun ds => { ds with isOn := true })
            s.devices) }, .turn true)
      else .error .commandExecutionFailed
    | .turnOff =>
      if sendOk then
        .ok ({ s with devices :=
          (alUpdate cmd.deviceId (fun ds => { ds with isOn := false })
            s.devices) }, .turn false)
      else .error .commandExecutionFailed
    | .setColor =>
      match cmd.colorParam with
      | none => .error .commandExecutionFailed
      | some c =>
        if sendOk then
          .ok ({ s with devices :=
            (alUpdate cmd.deviceId (fun ds => { ds with color := some c })
              s.devices) }, .color c)
        else .error .commandExecutionFailed
    | .setBrightness =>
      match cmd.brightnessParam with
      | none => .error .commandExecutionFailed
      | some b =>
        if sendOk then
          .ok ({ s with devices :=
            (alUpdate cmd.deviceId
              (fun ds => { ds with brightness := some (clamp100 b) })
              s.devices) }, .brightness (clamp100 b))
        else .error .commandExecutionFailed
    | .custom => .error .commandExecutionFailed

end Govee

/-! ### Light Manager (`LightManager`) -/

/-- An adapter as the Light Manager sees it: `getDevice` either throws
(`Except.error`), reports the device as unknown (`none`) or returns it;
`executeCommand` either throws or succeeds. -/
structure AdapterM where
  getDev : String → Except Unit (Option DeviceState)
  exec : LightCommand → Except Unit Unit

/-- Top-level errors of `LightManager.executeCommand`. -/
inductive LMErr
  | deviceNotFound
  | noAdapterCouldHandle
deriving DecidableEq

namespace LightMgr

/-- `LightManager.getDevice`: ask each adapter in turn; a throwing adapter is
logged and skipped; the first adapter returning a device wins; `none` when no
adapter recognises the id. -/
def getDevice (adapters : List AdapterM) (deviceId : String) :
    Option DeviceState :=
  match adapters with
  | [] => none
  | a :: rest =>
    match a.getDev deviceId with
    | .ok (some d) => some d
    | .ok none => getDevice rest deviceId
    | .error _ => getDevice rest deviceId

/-- The adapter loop of `LightManager.executeCommand`: try each adapter; the
first successful execution returns; a throwing adapter is logged and the next
one is tried; when every adapter has been tried and failed, the top-level
"No adapter could handle the command" error is raised. -/
def tryAdapters (adapters : List AdapterM) (cmd : LightCommand) :
    Except LMErr Unit :=
  match adapters with
  | [] => .error .noAdapterCouldHandle
  | a :: rest =>
    match a.exec cmd with
    | .ok _ => .ok ()
    | .error _ => tryAdapters rest cmd

/-- `LightManager.executeCommand`: resolve the device first (failing with
`Device not found` when no adapter recognises the id), then run the adapter
loop.  The lazy `initialize()` call at the top never throws — every
per-adapter failure inside it is caught — so it is not modelled. -/
def executeCommand (adapters : List AdapterM) (cmd : LightCommand) :
    Except LMErr Unit :=
  match getDevice adapters cmd.deviceId with
  | none => .error .deviceNotFound
  | some _ => tryAdapters adapters cmd

end LightMgr

/-! ### Concrete sample data for evaluating the model -/

/-- A restorable timed color effect (the default `MATCH_VICTORY`-style
effect, restorable variant). -/
def exVictoryEffect : GameEffect :=
  { eventType := "V",
    command := { ctype := .setColor, colorParam := some ("#00FF00") },
    priority := some 10, duration := some 5000, restorePreviousState := true }

/-- A device with both color and brightness known. -/
def exDev1 : DeviceState :=
  { isOn := true, color := some ("#FFFFFF"), brightness := some 80 }

/-- A second device. -/
def exDev2 : DeviceState :=
  { isOn := true, color := some ("#AAAAAA"), brightness := some 50 }

/-- A device whose brightness was never reported. -/
def exDevNoBright : DeviceState :=
  { isOn := true, color := some ("#FFFFFF"), brightness := none }

/-- A fresh dispatcher over a single-device world. -/
def exInit : GDState :=
  { effects := [], deviceStates := [], activeEffects := [],
    world := [("d1", exDev1)], sent := [] }

/-- A fresh dispatcher over a single-device world without brightness. -/
def exInitNB : GDState :=
  { effects := [], deviceStates := [], activeEffects := [],
    world := [("d1", exDevNoBright)], sent := [] }

/-- The dispatcher of `exInit` with the victory effect registered. -/
def exC1Start : GDState := GameDin.addEffect exVictoryEffect exInit

/-- `exC1Start` after one "V" event and one further (replacement) "V"
event, all commands succeeding. -/
def exC1Mid : GDState :=
  GameDin.runEvents [({ etype := "V" }, fun _ => true)]
    (GameDin.handleEvent (fun _ => true) { etype := "V" } exC1Start)

/-- The dispatcher of `exInitNB` with the victory effect registered. -/
def exC1StartNB : GDState := GameDin.addEffect exVictoryEffect exInitNB

/-- One successful "V" event on the brightness-less device. -/
def exC1MidNB : GDState :=
  GameDin.runEvents [] (GameDin.handleEvent (fun _ => true) { etype := "V" } exC1StartNB)

/-- One successful "V" event on `exInit` with the victory effect
registered: snapshot taken, command applied, timer pending. -/
def exApplied : GDState :=
  GameDin.handleEvent (fun _ => true) { etype := "V" }
    (GameDin.addEffect exVictoryEffect exInit)

/-- `exApplied` after its restoration timer fired with the reissued
`setColor` command failing. -/
def exFailedRestore : GDState :=
  GameDin.fireTimer false false ("d1") exApplied

/-- A fresh dispatcher over a two-device world. -/
def exTwoInit : GDState :=
  { effects := [], deviceStates := [], activeEffects := [],
    world := [("d1", exDev1), ("d2", exDev2)], sent := [] }

/-- One "V" event on the two-device world where the command for `d1`
throws and the command for `d2` succeeds. -/
def exPartialFail : GDState :=
  GameDin.handleEvent (fun id => id == ("d2")) { etype := "V" }
    (GameDin.addEffect exVictoryEffect exTwoInit)

/-- Two equal-event effects with distinct priorities. -/
def exEffHigh : GameEffect :=
  { eventType := "J",
    command := { ctype := .setColor, colorParam := some ("#111111") },
    priority := some 5 }

/-- The lower-priority counterpart of `exEffHigh`. -/
def exEffLow : GameEffect :=
  { eventType := "J",
    command := { ctype := .setColor, colorParam := some ("#222222") },
    priority := some 1 }

/-- A dispatcher whose registry holds the two "J" effects, sorted. -/
def exRegistryState : GDState :=
  { effects := [("J", [exEffHigh, exEffLow])], deviceStates := [],
    activeEffects := [], world := [], sent := [] }

/-- An initialized Govee adapter knowing the device `X`. -/
def exGoveeState : GoveeState :=
  { isInitialized := true, devices := [("X", exDev1)] }

/-- A Govee adapter before `initialize()`. -/
def exGoveeUninit : GoveeState :=
  { isInitialized := false, devices := [] }

/-- An adapter that throws on every call (the spec's adapter `A`). -/
def exAdapterA : AdapterM :=
  { getDev := fun _ => .error (), exec := fun _ => .error () }

/-- An adapter that owns exactly the device `devB` (the spec's adapter
`B`). -/
def exAdapterB : AdapterM :=
  { getDev := fun id => if id = ("devB") then .ok (some exDev1) else .ok none,
    exec := fun cmd => if cmd.deviceId = ("devB") then .ok () else .error () }

/-- A command addressed to `devB`. -/
def exCmdB : LightCommand := { ctype := .turnOn, deviceId := "devB" }

/-- A sync service in the middle of a tick. -/
def exSyncBusy : SyncState := { isSyncing := true, bodyRuns := 3 }

/-! ### Lemmas about the association-list maps -/

theorem alGet_alSet_self {α : Type} (k : String) (v : α) (l : List (String × α)) :
    alGet k (alSet k v l) = some v := by
  induction l with
  | nil => simp [alGet, alSet]
  | cons p t ih =>
    by_cases h : p.1 = k
    · simp [alGet, alSet, h]
    · simp [alGet, alSet, h, ih]

theorem alGet_alSet_ne {α : Type} (k k' : String) (v : α) (l : List (String × α))
    (h : k' ≠ k) : alGet k' (alSet k v l) = alGet k' l := by
  have hk : ¬ k = k' := fun hh => h hh.symm
  induction l with
  | nil => simp [alGet, alSet, hk]
  | cons p t ih =>
    by_cases hp : p.1 = k
    · simp [alGet, alSet, hp, hk]
    · by_cases hq : p.1 = k'
      · simp [alGet, alSet, hp, hq, hk, h]
      · simp [alGet, alSet, hp, hq, ih]

theorem alGet_alDelete_self {α : Type} (k : String) (l : List (String × α)) :
    alGet k (alDelete k l) = none := by
  induction l with
  | nil => simp [alGet, alDelete]
  | cons p t ih =>
    by_cases h : p.1 = k
    · simp [alDelete, h, ih]
    · simp [alGet, alDelete, h, ih]

theorem alGet_alDelete_ne {α : Type} (k k' : String) (l : List (String × α))
    (h : k' ≠ k) : alGet k' (alDelete k l) = alGet k' l := by
  have hk : ¬ k = k' := fun hh => h hh.symm
  induction l with
  | nil => simp [alDelete]
  | cons p t ih =>
    by_cases hp : p.1 = k
    · simp [alGet, alDelete, hp, hk, ih]
    · by_cases hq : p.1 = k'
      · simp [alGet, alDelete, hp, hq, hk, h]
      · simp [alGet, alDelete, hp, hq, ih]

theorem alGet_alUpdate_self {α : Type} (k : String) (f : α → α)
    (l : List (String × α)) : alGet k (alUpdate k f l) = (alGet k l).map f := by
  induction l with
  | nil => simp [alGet, alUpdate]
  | cons p t ih =>
    by_cases h : p.1 = k
    · simp [alGet, alUpdate, h]
    · simpa [alGet, alUpdate, h] using ih

theorem alGet_alUpdate_ne {α : Type} (k k' : String) (f : α → α)
    (l : List (String × α)) (h : k' ≠ k) :
    alGet k' (alUpdate k f l) = alGet k' l := by
  have hk : ¬ k = k' := fun hh => h hh.symm
  induction l with
  | nil => simp [alGet, alUpdate]
  | cons p t ih =>
    by_cases hp : p.1 = k
    · simp only [alUpdate, List.map_cons, if_pos hp, alGet]
      rw [if_neg (fun hh => h (hp ▸ hh).symm), if_neg (fun hh => h (hp ▸ hh).symm)]
      simpa [alUpdate] using ih
    · by_cases hq : p.1 = k'
      · simp [alGet, alUpdate, hp, hq, hk, h]
      · simpa [alGet, alUpdate, hp, hq] using ih

theorem isSome_alGet_alUpdate {α : Type} (k k' : String) (f : α → α)
    (l : List (String × α)) :
    (alGet k' (alUpdate k f l)).isSome = (alGet k' l).isSome := by
  by_cases h : k' = k
  · subst h
    rw [alGet_alUpdate_self]
    cases alGet k' l <;> simp
  · rw [alGet_alUpdate_ne _ _ _ _ h]

theorem mem_alKeys_alSet {α : Type} (k x : String) (v : α) (l : List (String × α))
    (h : x ∈ alKeys (alSet k v l)) : x = k ∨ x ∈ alKeys l := by
  induction l with
  | nil =>
    rw [alKeys] at h
    simp only [alSet, List.map_cons, List.map_nil, List.mem_singleton] at h
    exact Or.inl h
  | cons p t ih =>
    by_cases hp : p.1 = k
    · rw [alKeys, alSet, if_pos hp, List.map_cons, List.mem_cons] at h
      rcases h with h1 | h2
      · exact Or.inl h1
      · exact Or.inr (by rw [alKeys, List.map_cons, List.mem_cons]; exact Or.inr h2)
    · rw [alKeys, alSet, if_neg hp, List.map_cons, List.mem_cons] at h
      rcases h with h1 | h2
      · exact Or.inr (by rw [alKeys, List.map_cons, List.mem_cons]; exact Or.inl h1)
      · rcases ih h2 with h3 | h4
        · exact Or.inl h3
        · exact Or.inr (by rw [alKeys, List.map_cons, List.mem_cons]; exact Or.inr h4)

theorem nodup_alKeys_alSet {α : Type} (k : String) (v : α) (l : List (String × α))
    (h : (alKeys l).Nodup) : (alKeys (alSet k v l)).Nodup := by
  induction l with
  | nil => simp [alKeys, alSet]
  | cons p t ih =>
    rw [alKeys, List.map_cons, List.nodup_cons] at h
    by_cases hp : p.1 = k
    · rw [alKeys, alSet, if_pos hp, List.map_cons, List.nodup_cons]
      exact ⟨hp ▸ h.1, h.2⟩
    · have ht := ih h.2
      rw [alKeys, alSet, if_neg hp, List.map_cons, List.nodup_cons]
      refine ⟨fun hmem => ?_, ht⟩
      rcases mem_alKeys_alSet k p.1 v t hmem with h1 | h2
      · exact hp h1
      · exact h.1 h2

theorem alKeys_alDelete_subset {α : Type} (k : String) (l : List (String × α)) :
    ∀ x, x ∈ alKeys (alDelete k l) → x ∈ alKeys l := by
  induction l with
  | nil => intro x hx; rw [alKeys] at hx; simp [alDelete] at hx
  | cons p t ih =>
    intro x hx
    by_cases hp : p.1 = k
    · rw [alDelete, if_pos hp] at hx
      rw [alKeys, List.map_cons, List.mem_cons]
      exact Or.inr (ih x hx)
    · rw [alKeys, alDelete, if_neg hp, List.map_cons, List.mem_cons] at hx
      rw [alKeys, List.map_cons, List.mem_cons]
      rcases hx with h1 | h2
      · exact Or.inl h1
      · exact Or.inr (ih x h2)

theorem nodup_alKeys_alDelete {α : Type} (k : String) (l : List (String × α))
    (h : (alKeys l).Nodup) : (alKeys (alDelete k l)).Nodup := by
  induction l with
  | nil => simp [alKeys, alDelete]
  | cons p t ih =>
    rw [alKeys, List.map_cons, List.nodup_cons] at h
    by_cases hp : p.1 = k
    · rw [alDelete, if_pos hp]
      exact ih h.2
    · rw [alKeys, alDelete, if_neg hp, List.map_cons, List.nodup_cons]
      exact ⟨fun hmem => h.1 (alKeys_alDelete_subset k t p.1 hmem), ih h.2⟩

namespace GameDin

/-! ### Component lemmas about `applyEffectsToDevice` -/

theorem applyEffects_none (ok : Bool) (ev : GameEvent) (effs : List GameEffect)
    (dev : String × DeviceState) (s : GDState)
    (h : effs.find? (fun e => effMatches e ev) = none) :
    applyEffectsToDevice ok ev effs dev s = s := by
  unfold applyEffectsToDevice
  rw [h]

theorem applyEffects_effects (ok : Bool) (ev : GameEvent) (effs : List GameEffect)
    (dev : String × DeviceState) (s : GDState) :
    (applyEffectsToDevice ok ev effs dev s).effects = s.effects := by
  unfold applyEffectsToDevice
  cases h : effs.find? (fun e => effMatches e ev) with
  | none => rfl
  | some e =>
    simp only [clearDeviceEffect]
    by_cases h1 : (e.restorePreviousState && (alGet dev.1 s.deviceStates).isNone) = true
    · simp only [h1, if_true]
      cases ok <;> cases h2 : effHasTimer e <;> simp
    · simp only [h1, if_false]
      cases ok <;> cases h2 : effHasTimer e <;> simp

theorem applyEffects_deviceStates_some (ok : Bool) (ev : GameEvent)
    (effs : List GameEffect) (dev : String × DeviceState) (s : GDState)
    (e : GameEffect) (h : effs.find? (fun x => effMatches x ev) = some e) :
    (applyEffectsToDevice ok ev effs dev s).deviceStates =
      (if e.restorePreviousState && (alGet dev.1 s.deviceStates).isNone then
        alSet dev.1 { color := dev.2.color, brightness := dev.2.brightness }
          s.deviceStates
      else s.deviceStates) := by
  unfold applyEffectsToDevice
  rw [h]
  simp only [clearDeviceEffect]
  by_cases h1 : (e.restorePreviousState && (alGet dev.1 s.deviceStates).isNone) = true
  · simp only [h1, if_true]
    cases ok <;> cases h2 : effHasTimer e <;> simp
  · simp only [h1, if_false]
    cases ok <;> cases h2 : effHasTimer e <;> simp

theorem applyEffects_deviceStates_preserved (ok : Bool) (ev : GameEvent)
    (effs : List GameEffect) (dev : String × DeviceState) (s : GDState)
    (d : String) (σ : SavedSnapshot) (h : alGet d s.deviceStates = some σ) :
    alGet d (applyEffectsToDevice ok ev effs dev s).deviceStates = some σ := by
  cases hf : effs.find? (fun x => effMatches x ev) with
  | none => rw [applyEffects_none _ _ _ _ _ hf]; exact h
  | some e =>
    rw [applyEffects_deviceStates_some _ _ _ _ _ _ hf]
    by_cases h1 : (e.restorePreviousState && (alGet dev.1 s.deviceStates).isNone) = true
    · rw [if_pos h1]
      by_cases hd : d = dev.1
      · subst hd
        rw [h] at h1
        simp at h1
      · rw [alGet_alSet_ne _ _ _ _ hd]
        exact h
    · rw [if_neg h1]
      exact h

theorem applyEffects_deviceStates_other (ok : Bool) (ev : GameEvent)
    (effs : List GameEffect) (dev : String × DeviceState) (s : GDState)
    (d : String) (hd : d ≠ dev.1) :
    alGet d (applyEffectsToDevice ok ev effs dev s).deviceStates =
      alGet d s.deviceStates := by
  cases hf : effs.find? (fun x => effMatches x ev) with
  | none => rw [applyEffects_none _ _ _ _ _ hf]
  | some e =>
    rw [applyEffects_deviceStates_some _ _ _ _ _ _ hf]
    by_cases h1 : (e.restorePreviousState && (alGet dev.1 s.deviceStates).isNone) = true
    · rw [if_pos h1, alGet_alSet_ne _ _ _ _ hd]
    · rw [if_neg h1]

theorem applyEffects_activeEffects_some (ok : Bool) (ev : GameEvent)
    (effs : List GameEffect) (dev : String × DeviceState) (s : GDState)
    (e : GameEffect) (h : effs.find? (fun x => effMatches x ev) = some e) :
    alGet dev.1 (applyEffectsToDevice ok ev effs dev s).activeEffects =
      (if ok && effHasTimer e then some e.restorePreviousState else none) := by
  unfold applyEffectsToDevice
  rw [h]
  simp only [clearDeviceEffect]
  by_cases h1 : (e.restorePreviousState && (alGet dev.1 s.deviceStates).isNone) = true
  · simp only [h1, if_true]
    cases ok <;> cases h2 : effHasTimer e <;>
      simp [h2, alGet_alSet_self, alGet_alDelete_self]
  · simp only [h1, if_false]
    cases ok <;> cases h2 : effHasTimer e <;>
      simp [h2, alGet_alSet_self, alGet_alDelete_self]

theorem applyEffects_activeEffects_other (ok : Bool) (ev : GameEvent)
    (effs : List GameEffect) (dev : String × DeviceState) (s : GDState)
    (d : String) (hd : d ≠ dev.1) :
    alGet d (applyEffectsToDevice ok ev effs dev s).activeEffects =
      alGet d s.activeEffects := by
  unfold applyEffectsToDevice
  cases h : effs.find? (fun x => effMatches x ev) with
  | none => rfl
  | some e =>
    simp only [clearDeviceEffect]
    by_cases h1 : (e.restorePreviousState && (alGet dev.1 s.deviceStates).isNone) = true
    · simp only [h1, if_true]
      cases ok <;> cases h2 : effHasTimer e <;>
        simp [h2, alGet_alSet_ne _ _ _ _ hd, alGet_alDelete_ne _ _ _ hd]
    · simp only [h1, if_false]
      cases ok <;> cases h2 : effHasTimer e <;>
        simp [h2, alGet_alSet_ne _ _ _ _ hd, alGet_alDelete_ne _ _ _ hd]

theorem applyEffects_world_false (ev : GameEvent) (effs : List GameEffect)
    (dev : String × DeviceState) (s : GDState) :
    (applyEffectsToDevice false ev effs dev s).world = s.world := by
  unfold applyEffectsToDevice
  cases h : effs.find? (fun x => effMatches x ev) with
  | none => rfl
  | some e =>
    simp only [clearDeviceEffect]
    by_cases h1 : (e.restorePreviousState && (alGet dev.1 s.deviceStates).isNone) = true
    · simp [h1]
    · simp [h1]

theorem applyEffects_world_true (ev : GameEvent) (effs : List GameEffect)
    (dev : String × DeviceState) (s : GDState) (e : GameEffect)
    (h : effs.find? (fun x => effMatches x ev) = some e) :
    (applyEffectsToDevice true ev effs dev s).world =
      applyCmdToWorld (withDevice e.command dev.1) s.world := by
  unfold applyEffectsToDevice
  rw [h]
  simp only [clearDeviceEffect]
  by_cases h1 : (e.restorePreviousState && (alGet dev.1 s.deviceStates).isNone) = true
  · simp only [h1, if_true]
    cases h2 : effHasTimer e <;> simp
  · simp only [h1, if_false]
    cases h2 : effHasTimer e <;> simp

theorem applyEffects_sent_some (ok : Bool) (ev : GameEvent)
    (effs : List GameEffect) (dev : String × DeviceState) (s : GDState)
    (e : GameEffect) (h : effs.find? (fun x => effMatches x ev) = some e) :
    (applyEffectsToDevice ok ev effs dev s).sent =
      s.sent ++ [withDevice e.command dev.1] := by
  unfold applyEffectsToDevice
  rw [h]
  simp only [clearDeviceEffect]
  by_cases h1 : (e.restorePreviousState && (alGet dev.1 s.deviceStates).isNone) = true
  · simp only [h1, if_true]
    cases ok <;> cases h2 : effHasTimer e <;> simp
  · simp only [h1, if_false]
    cases ok <;> cases h2 : effHasTimer e <;> simp

theorem applyEffects_world_isSome (ok : Bool) (ev : GameEvent)
    (effs : List GameEffect) (dev : String × DeviceState) (s : GDState)
    (d : String) :
    (alGet d (applyEffectsToDevice ok ev effs dev s).world).isSome =
      (alGet d s.world).isSome := by
  cases hf : effs.find? (fun x => effMatches x ev) with
  | none => rw [applyEffects_none _ _ _ _ _ hf]
  | some e =>
    cases ok with
    | false => rw [applyEffects_world_false]
    | true =>
      rw [applyEffects_world_true _ _ _ _ _ hf, applyCmdToWorld,
        isSome_alGet_alUpdate]

theorem applyEffects_world_other (ok : Bool) (ev : GameEvent)
    (effs : List GameEffect) (dev : String × DeviceState) (s : GDState)
    (d : String) (hd : d ≠ dev.1) :
    alGet d (applyEffectsToDevice ok ev effs dev s).world = alGet d s.world := by
  cases hf : effs.find? (fun x => effMatches x ev) with
  | none => rw [applyEffects_none _ _ _ _ _ hf]
  | some e =>
    cases ok with
    | false => rw [applyEffects_world_false]
    | true =>
      rw [applyEffects_world_true _ _ _ _ _ hf, applyCmdToWorld]
      exact alGet_alUpdate_ne _ _ _ _ (by simpa [withDevice] using hd)

/-! ### Component lemmas about `handleEvent`, `restoreDeviceState`, `fireTimer` -/

theorem foldl_preserve {β : Type} (f : GDState → β → GDState) (P : GDState → Prop)
    (hf : ∀ s b, P s → P (f s b)) :
    ∀ (l : List β) (s : GDState), P s → P (l.foldl f s) := by
  intro l
  induction l with
  | nil => intro s hs; exact hs
  | cons b t ih => intro s hs; exact ih (f s b) (hf s b hs)

theorem handleEvent_effects (ok : String → Bool) (ev : GameEvent) (s : GDState) :
    (handleEvent ok ev s).effects = s.effects := by
  unfold handleEvent
  by_cases he : ((alGet ev.etype s.effects).getD []).isEmpty = true
  · simp [he]
  · simp only [he, if_false]
    exact foldl_preserve _ (fun st => st.effects = s.effects)
      (fun st dev hst => (applyEffects_effects _ _ _ _ _).trans hst) s.world s rfl

theorem handleEvent_deviceStates_preserved (ok : String → Bool) (ev : GameEvent)
    (s : GDState) (d : String) (σ : SavedSnapshot)
    (h : alGet d s.deviceStates = some σ) :
    alGet d (handleEvent ok ev s).deviceStates = some σ := by
  unfold handleEvent
  by_cases he : ((alGet ev.etype s.effects).getD []).isEmpty = true
  · simp only [he, if_true]; exact h
  · simp only [he, if_false]
    exact foldl_preserve _ (fun st => alGet d st.deviceStates = some σ)
      (fun st dev hst => applyEffects_deviceStates_preserved _ _ _ _ _ _ _ hst)
      s.world s h

theorem handleEvent_world_isSome (ok : String → Bool) (ev : GameEvent)
    (s : GDState) (d : String) (h : (alGet d s.world).isSome = true) :
    (alGet d (handleEvent ok ev s).world).isSome = true := by
  unfold handleEvent
  by_cases he : ((alGet ev.etype s.effects).getD []).isEmpty = true
  · simp only [he, if_true]; exact h
  · simp only [he, if_false]
    exact foldl_preserve _ (fun st => (alGet d st.world).isSome = true)
      (fun st dev hst => (applyEffects_world_isSome _ _ _ _ _ _).trans hst)
      s.world s h

theorem handleEvent_single (ok : String → Bool) (ev : GameEvent) (s : GDState)
    (d : String) (ds : DeviceState) (effs : List GameEffect)
    (hw : s.world = [(d, ds)])
    (he : (alGet ev.etype s.effects).getD [] = effs) (hne : effs ≠ []) :
    handleEvent ok ev s = applyEffectsToDevice (ok d) ev effs (d, ds) s := by
  unfold handleEvent
  rw [he, hw]
  have : effs.isEmpty = false := by
    cases effs with
    | nil => exact absurd rfl hne
    | cons a t => rfl
  simp [this]

theorem restoreBrightness_activeEffects (brightOk : Bool) (d : String)
    (st : SavedSnapshot) (s : GDState) :
    (restoreBrightness brightOk d st s).activeEffects = s.activeEffects := by
  unfold restoreBrightness
  cases st.brightness with
  | none => rfl
  | some b => cases brightOk <;> simp

theorem restoreDeviceState_activeEffects (colorOk brightOk : Bool) (d : String)
    (s : GDState) :
    (restoreDeviceState colorOk brightOk d s).activeEffects = s.activeEffects := by
  cases h : alGet d s.deviceStates with
  | none => simp [restoreDeviceState, h]
  | some st =>
    cases hc : st.color with
    | none => simp [restoreDeviceState, h, hc, restoreBrightness_activeEffects]
    | some c =>
      cases colorOk <;>
        simp [restoreDeviceState, h, hc, restoreBrightness_activeEffects]

theorem restore_success_full (d : String) (s : GDState) (σ : SavedSnapshot)
    (c : String) (b : Int) (h : alGet d s.deviceStates = some σ)
    (hc : σ.color = some c) (hb : σ.brightness = some b) :
    (restoreDeviceState true true d s).world =
        applyCmdToWorld (setBrightnessCmd d b)
          (applyCmdToWorld (setColorCmd d c) s.world)
      ∧ (restoreDeviceState true true d s).sent =
        s.sent ++ [setColorCmd d c, setBrightnessCmd d b]
      ∧ (restoreDeviceState true true d s).deviceStates = alDelete d s.deviceStates
      ∧ (restoreDeviceState true true d s).activeEffects = s.activeEffects := by
  simp [restoreDeviceState, h, hc, restoreBrightness, hb]

theorem restore_success_color_only (d : String) (s : GDState) (σ : SavedSnapshot)
    (c : String) (h : alGet d s.deviceStates = some σ)
    (hc : σ.color = some c) (hb : σ.brightness = none) :
    (restoreDeviceState true true d s).world =
        applyCmdToWorld (setColorCmd d c) s.world
      ∧ (restoreDeviceState true true d s).sent = s.sent ++ [setColorCmd d c]
      ∧ (restoreDeviceState true true d s).deviceStates = alDelete d s.deviceStates
      ∧ (restoreDeviceState true true d s).activeEffects = s.activeEffects := by
  simp [restoreDeviceState, h, hc, restoreBrightness, hb]

theorem restore_color_failure (brightOk : Bool) (d : String) (s : GDState)
    (σ : SavedSnapshot) (c : String) (h : alGet d s.deviceStates = some σ)
    (hc : σ.color = some c) :
    restoreDeviceState false brightOk d s =
      { s with sent := s.sent ++ [setColorCmd d c] } := by
  simp [restoreDeviceState, h, hc]

theorem fireTimer_noTimer (colorOk brightOk : Bool) (d : String) (s : GDState)
    (h : alGet d s.activeEffects = none) :
    fireTimer colorOk brightOk d s = s := by
  unfold fireTimer
  rw [h]

theorem fireTimer_restoring (colorOk brightOk : Bool) (d : String) (s : GDState)
    (h : alGet d s.activeEffects = some true) :
    fireTimer colorOk brightOk d s =
      clearDeviceEffect d (restoreDeviceState colorOk brightOk d s) := by
  unfold fireTimer
  rw [h]
  simp

theorem fireTimer_activeEffects (colorOk brightOk : Bool) (d : String)
    (s : GDState) :
    alGet d (fireTimer colorOk brightOk d s).activeEffects = none := by
  unfold fireTimer
  cases h : alGet d s.activeEffects with
  | none => exact h
  | some flag =>
    cases flag <;> simp [clearDeviceEffect, alGet_alDelete_self]

theorem applyEffects_activeEffects_full (ok : Bool) (ev : GameEvent)
    (effs : List GameEffect) (dev : String × DeviceState) (s : GDState)
    (e : GameEffect) (h : effs.find? (fun x => effMatches x ev) = some e) :
    (applyEffectsToDevice ok ev effs dev s).activeEffects =
      (if ok && effHasTimer e then
        alSet dev.1 e.restorePreviousState (alDelete dev.1 s.activeEffects)
      else alDelete dev.1 s.activeEffects) := by
  unfold applyEffectsToDevice
  rw [h]
  simp only [clearDeviceEffect]
  by_cases h1 : (e.restorePreviousState && (alGet dev.1 s.deviceStates).isNone) = true
  · simp only [h1, if_true]
    cases ok <;> cases h2 : effHasTimer e <;> simp [h2]
  · simp only [h1, if_false]
    cases ok <;> cases h2 : effHasTimer e <;> simp [h2]

theorem applyEffects_deviceStates_nodup (ok : Bool) (ev : GameEvent)
    (effs : List GameEffect) (dev : String × DeviceState) (s : GDState)
    (h : (alKeys s.deviceStates).Nodup) :
    (alKeys (applyEffectsToDevice ok ev effs dev s).deviceStates).Nodup := by
  cases hf : effs.find? (fun x => effMatches x ev) with
  | none => rw [applyEffects_none _ _ _ _ _ hf]; exact h
  | some e =>
    rw [applyEffects_deviceStates_some _ _ _ _ _ _ hf]
    by_cases h1 : (e.restorePreviousState && (alGet dev.1 s.deviceStates).isNone) = true
    · rw [if_pos h1]
      exact nodup_alKeys_alSet _ _ _ h
    · rw [if_neg h1]
      exact h

theorem applyEffects_activeEffects_nodup (ok : Bool) (ev : GameEvent)
    (effs : List GameEffect) (dev : String × DeviceState) (s : GDState)
    (h : (alKeys s.activeEffects).Nodup) :
    (alKeys (applyEffectsToDevice ok ev effs dev s).activeEffects).Nodup := by
  cases hf : effs.find? (fun x => effMatches x ev) with
  | none => rw [applyEffects_none _ _ _ _ _ hf]; exact h
  | some e =>
    rw [applyEffects_activeEffects_full _ _ _ _ _ _ hf]
    by_cases h1 : (ok && effHasTimer e) = true
    · rw [if_pos h1]
      exact nodup_alKeys_alSet _ _ _ (nodup_alKeys_alDelete _ _ h)
    · rw [if_neg h1]
      exact nodup_alKeys_alDelete _ _ h

theorem addEffect_deviceStates (e : GameEffect) (s : GDState) :
    (addEffect e s).deviceStates = s.deviceStates := rfl

theorem addEffect_activeEffects (e : GameEffect) (s : GDState) :
    (addEffect e s).activeEffects = s.activeEffects := rfl

theorem removeEffect_deviceStates (t : String) (i : Nat) (s : GDState) :
    (removeEffect t i s).deviceStates = s.deviceStates := by
  unfold removeEffect
  cases alGet t s.effects with
  | none => rfl
  | some effs => by_cases hi : i < effs.length <;> simp [hi]

theorem removeEffect_activeEffects (t : String) (i : Nat) (s : GDState) :
    (removeEffect t i s).activeEffects = s.activeEffects := by
  unfold removeEffect
  cases alGet t s.effects with
  | none => rfl
  | some effs => by_cases hi : i < effs.length <;> simp [hi]

theorem restoreBrightness_deviceStates (brightOk : Bool) (d : String)
    (st : SavedSnapshot) (s : GDState) :
    (restoreBrightness brightOk d st s).deviceStates = s.deviceStates ∨
      (restoreBrightness brightOk d st s).deviceStates = alDelete d s.deviceStates := by
  unfold restoreBrightness
  cases st.brightness with
  | none => exact Or.inr rfl
  | some b => cases brightOk <;> simp

theorem restoreDeviceState_deviceStates (colorOk brightOk : Bool) (d : String)
    (s : GDState) :
    (restoreDeviceState colorOk brightOk d s).deviceStates = s.deviceStates ∨
      (restoreDeviceState colorOk brightOk d s).deviceStates =
        alDelete d s.deviceStates := by
  cases h : alGet d s.deviceStates with
  | none => exact Or.inl (by simp [restoreDeviceState, h])
  | some st =>
    cases hc : st.color with
    | none =>
      have := restoreBrightness_deviceStates brightOk d st s
      simpa [restoreDeviceState, h, hc] using this
    | some c =>
      cases colorOk with
      | false => exact Or.inl (by simp [restoreDeviceState, h, hc])
      | true =>
        have := restoreBrightness_deviceStates brightOk d st
          { s with sent := s.sent ++ [setColorCmd d c],
                   world := applyCmdToWorld (setColorCmd d c) s.world }
        simpa [restoreDeviceState, h, hc] using this

theorem restoreDeviceState_success_deviceStates (d : String) (s : GDState)
    (σ : SavedSnapshot) (h : alGet d s.deviceStates = some σ) :
    (restoreDeviceState true true d s).deviceStates = alDelete d s.deviceStates := by
  cases hc : σ.color with
  | none =>
    cases hb : σ.brightness with
    | none => simp [restoreDeviceState, h, hc, restoreBrightness, hb]
    | some b => simp [restoreDeviceState, h, hc, restoreBrightness, hb]
  | some c =>
    cases hb : σ.brightness with
    | none => simp [restoreDeviceState, h, hc, restoreBrightness, hb]
    | some b => simp [restoreDeviceState, h, hc, restoreBrightness, hb]

theorem fireTimer_deviceStates_nodup (colorOk brightOk : Bool) (d : String)
    (s : GDState) (h : (alKeys s.deviceStates).Nodup) :
    (alKeys (fireTimer colorOk brightOk d s).deviceStates).Nodup := by
  unfold fireTimer
  cases ht : alGet d s.activeEffects with
  | none => exact h
  | some flag =>
    cases flag with
    | false => simpa [clearDeviceEffect] using h
    | true =>
      simp only [if_true, clearDeviceEffect]
      rcases restoreDeviceState_deviceStates colorOk brightOk d s with h1 | h1 <;>
        rw [h1]
      · exact h
      · exact nodup_alKeys_alDelete _ _ h

theorem fireTimer_activeEffects_nodup (colorOk brightOk : Bool) (d : String)
    (s : GDState) (h : (alKeys s.activeEffects).Nodup) :
    (alKeys (fireTimer colorOk brightOk d s).activeEffects).Nodup := by
  unfold fireTimer
  cases ht : alGet d s.activeEffects with
  | none => exact h
  | some flag =>
    cases flag with
    | false => simpa [clearDeviceEffect] using nodup_alKeys_alDelete d _ h
    | true =>
      simp only [if_true, clearDeviceEffect]
      rw [restoreDeviceState_activeEffects]
      exact nodup_alKeys_alDelete _ _ h

theorem handleEvent_nodup (ok : String → Bool) (ev : GameEvent) (s : GDState)
    (h1 : (alKeys s.deviceStates).Nodup) (h2 : (alKeys s.activeEffects).Nodup) :
    (alKeys (handleEvent ok ev s).deviceStates).Nodup ∧
      (alKeys (handleEvent ok ev s).activeEffects).Nodup := by
  unfold handleEvent
  by_cases he : ((alGet ev.etype s.effects).getD []).isEmpty = true
  · simp only [he, if_true]
    exact ⟨h1, h2⟩
  · simp only [he, if_false]
    exact foldl_preserve _
      (fun st => (alKeys st.deviceStates).Nodup ∧ (alKeys st.activeEffects).Nodup)
      (fun st dev hst =>
        ⟨applyEffects_deviceStates_nodup _ _ _ _ _ hst.1,
         applyEffects_activeEffects_nodup _ _ _ _ _ hst.2⟩)
      s.world s ⟨h1, h2⟩

theorem clearDeviceEffect_world (d : String) (s : GDState) :
    (clearDeviceEffect d s).world = s.world := rfl

theorem clearDeviceEffect_sent (d : String) (s : GDState) :
    (clearDeviceEffect d s).sent = s.sent := rfl

theorem clearDeviceEffect_deviceStates (d : String) (s : GDState) :
    (clearDeviceEffect d s).deviceStates = s.deviceStates := rfl

theorem applyCmdRec_setColorCmd (d c : String) (ds : DeviceState) :
    applyCmdRec (setColorCmd d c) ds = { ds with color := some c } := rfl

theorem applyCmdRec_setBrightnessCmd (d : String) (b : Int) (ds : DeviceState) :
    applyCmdRec (setBrightnessCmd d b) ds
      = { ds with brightness := some (clamp100 b) } := rfl

theorem deviceId_setColorCmd (d c : String) : (setColorCmd d c).deviceId = d := rfl

theorem deviceId_setBrightnessCmd (d : String) (b : Int) :
    (setBrightnessCmd d b).deviceId = d := rfl

/-- Shared scenario fact: starting from a state with no snapshot for `d` and
a single-device world, one `handleEvent` selecting a restorable effect
captures the snapshot `{color: device.color, brightness: device.brightness}`,
and any run of further events (replacement effects included) leaves that
snapshot untouched and keeps the device known to the world. -/
theorem scenario_snapshot_persisted (d : String) (ds0 : DeviceState)
    (s0 : GDState) (ev0 : GameEvent) (effs0 : List GameEffect) (e0 : GameEffect)
    (ok0 : String → Bool) (mids : List (GameEvent × (String → Bool)))
    (h1 : alGet d s0.deviceStates = none) (h2 : s0.world = [(d, ds0)])
    (h3 : (alGet ev0.etype s0.effects).getD [] = effs0)
    (h4 : effs0.find? (fun e => effMatches e ev0) = some e0)
    (h5 : e0.restorePreviousState = true) :
    alGet d (runEvents mids (handleEvent ok0 ev0 s0)).deviceStates
        = some { color := ds0.color, brightness := ds0.brightness }
      ∧ (alGet d (runEvents mids (handleEvent ok0 ev0 s0)).world).isSome
        = true := by
  have hnil : effs0 ≠ [] := by
    intro hh
    rw [hh] at h4
    simp at h4
  have hs1 : handleEvent ok0 ev0 s0
      = applyEffectsToDevice (ok0 d) ev0 effs0 (d, ds0) s0 :=
    handleEvent_single ok0 ev0 s0 d ds0 effs0 h2 h3 hnil
  have hsnap1 : alGet d (handleEvent ok0 ev0 s0).deviceStates
      = some { color := ds0.color, brightness := ds0.brightness } := by
    rw [hs1, applyEffects_deviceStates_some _ _ _ _ _ _ h4, h1]
    simp [h5, alGet_alSet_self]
  have hworld1 : (alGet d (handleEvent ok0 ev0 s0).world).isSome = true := by
    apply handleEvent_world_isSome
    rw [h2]
    simp [alGet]
  unfold runEvents
  exact foldl_preserve _
    (fun st => alGet d st.deviceStates
        = some { color := ds0.color, brightness := ds0.brightness }
      ∧ (alGet d st.world).isSome = true)
    (fun st p hst =>
      ⟨handleEvent_deviceStates_preserved _ _ _ _ _ hst.1,
       handleEvent_world_isSome _ _ _ _ hst.2⟩)
    mids _ ⟨hsnap1, hworld1⟩

/-! ### Order lemmas about the registry sort -/

theorem mem_insertEffDesc (a x : GameEffect) (l : List GameEffect)
    (h : x ∈ insertEffDesc a l) : x = a ∨ x ∈ l := by
  induction l with
  | nil => simpa [insertEffDesc] using h
  | cons b t ih =>
    by_cases hb : effPrio b ≤ effPrio a
    · rw [insertEffDesc, if_pos hb] at h
      simpa using h
    · rw [insertEffDesc, if_neg hb] at h
      rcases List.mem_cons.mp h with h1 | h2
      · exact Or.inr (List.mem_cons.mpr (Or.inl h1))
      · rcases ih h2 with h3 | h4
        · exact Or.inl h3
        · exact Or.inr (List.mem_cons.mpr (Or.inr h4))

theorem perm_insertEffDesc (a : GameEffect) (l : List GameEffect) :
    (insertEffDesc a l).Perm (a :: l) := by
  induction l with
  | nil => simp [insertEffDesc]
  | cons b t ih =>
    by_cases hb : effPrio b ≤ effPrio a
    · rw [insertEffDesc, if_pos hb]
    · rw [insertEffDesc, if_neg hb]
      exact (ih.cons b).trans (List.Perm.swap a b t)

theorem perm_sortEffectsDesc (l : List GameEffect) :
    (sortEffectsDesc l).Perm l := by
  induction l with
  | nil => simp [sortEffectsDesc]
  | cons a t ih =>
    exact (perm_insertEffDesc a (sortEffectsDesc t)).trans (ih.cons a)

theorem sorted_insertEffDesc (a : GameEffect) (l : List GameEffect)
    (h : l.Sorted prioGE) : (insertEffDesc a l).Sorted prioGE := by
  induction l with
  | nil => simp [insertEffDesc, List.Sorted]
  | cons b t ih =>
    rw [List.sorted_cons] at h
    by_cases hb : effPrio b ≤ effPrio a
    · rw [insertEffDesc, if_pos hb, List.sorted_cons]
      refine ⟨fun x hx => ?_, List.sorted_cons.mpr h⟩
      rcases List.mem_cons.mp hx with h1 | h2
      · exact h1 ▸ hb
      · exact le_trans (h.1 x h2) hb
    · rw [insertEffDesc, if_neg hb, List.sorted_cons]
      refine ⟨fun x hx => ?_, ih h.2⟩
      rcases mem_insertEffDesc a x t hx with h1 | h2
      · subst h1
        exact le_of_lt (lt_of_not_le hb)
      · exact h.1 x h2

theorem sorted_sortEffectsDesc (l : List GameEffect) :
    (sortEffectsDesc l).Sorted prioGE := by
  induction l with
  | nil => simp [sortEffectsDesc, List.Sorted]
  | cons a t ih => exact sorted_insertEffDesc a (sortEffectsDesc t) ih

theorem foldl_addEffectList_perm (es : List GameEffect) :
    ∀ l : List GameEffect, (es.foldl addEffectList l).Perm (l ++ es) := by
  induction es with
  | nil => intro l; simp
  | cons e t ih =>
    intro l
    have h1 : (addEffectList l e).Perm (l ++ [e]) := perm_sortEffectsDesc _
    have h2 := ih (addEffectList l e)
    have h3 : (l ++ [e]) ++ t = l ++ (e :: t) := by simp
    exact h2.trans (h3 ▸ h1.append_right t)

theorem perm_registryList (es : List GameEffect) : (registryList es).Perm es := by
  simpa [registryList] using foldl_addEffectList_perm es []

theorem sorted_registryList (es : List GameEffect) :
    (registryList es).Sorted prioGE := by
  rw [registryList]
  rcases es with _ | ⟨e, t⟩
  · simp [List.Sorted]
  · have : ∀ (u : List GameEffect) (l : List GameEffect), l.Sorted prioGE →
        (u.foldl addEffectList l).Sorted prioGE := by
      intro u
      induction u with
      | nil => intro l hl; exact hl
      | cons x v ih =>
        intro l hl
        exact ih (addEffectList l x) (sorted_sortEffectsDesc _)
    exact this (e :: t) [] (by simp [List.Sorted])

theorem find_max_of_sorted (p : GameEffect → Bool) (l : List GameEffect)
    (hs : l.Sorted prioGE) (sel : GameEffect) (h : l.find? p = some sel) :
    ∀ e ∈ l, p e = true → effPrio e ≤ effPrio sel := by
  induction l with
  | nil => simp at h
  | cons a t ih =>
    rw [List.sorted_cons] at hs
    by_cases ha : p a = true
    · rw [List.find?_cons_of_pos _ ha] at h
      injection h with h
      subst h
      intro e he _
      rcases List.mem_cons.mp he with h1 | h2
      · exact h1 ▸ le_refl _
      · exact hs.1 e h2
    · rw [List.find?_cons_of_neg _ ha] at h
      intro e he hpe
      rcases List.mem_cons.mp he with h1 | h2
      · exact absurd (h1 ▸ hpe) ha
      · exact ih hs.2 h e h2 hpe

end GameDin


/-! ### The claims -/

/-- C7: for every brightness value b, the Govee adapter's setBrightness path
sends and caches the clamped value `max(0, min(100, b))` instead of erroring
on out-of-range input (`GoveeAdapter.setBrightness`); the brightness-150 case
is evaluated in the witness. -/
theorem c7_setBrightness_clamps (s : GoveeState) (d : String) (b : Int)
    (hinit : s.isInitialized = true) (hdev : (alGet d s.devices).isSome = true) :
    ∃ s' : GoveeState,
      Govee.executeCommand true
          { ctype := .setBrightness, deviceId := d, brightnessParam := some b } s
        = .ok (s', .brightness (clamp100 b))
      ∧ (alGet d s'.devices).map DeviceState.brightness
        = some (some (clamp100 b)) := by
  rcases Option.isSome_iff_exists.mp hdev with ⟨ds0, hds0⟩
  have hnone : (alGet d s.devices).isNone = false := by
    rw [hds0]
    rfl
  refine ⟨{ s with devices :=
    (alUpdate d (fun ds => { ds with brightness := some (clamp100 b) })
      s.devices) }, ?_, ?_⟩
  · simp [Govee.executeCommand, hinit, hnone]
  · simp [alGet_alUpdate_self, hds0]

/-- C7 witness: brightness 150 on a real cached device is clamped to 100,
sent as 100 and cached as 100. -/
theorem c7_setBrightness_clamps_witness :
    clamp100 150 = 100 ∧
      ∃ s' : GoveeState,
        Govee.executeCommand true
            { ctype := .setBrightness, deviceId := "X", brightnessParam := some 150 }
            exGoveeState
          = .ok (s', .brightness (clamp100 150))
        ∧ (alGet ("X") s'.devices).map DeviceState.brightness
          = some (some (clamp100 150)) :=
  ⟨by decide, c7_setBrightness_clamps exGoveeState ("X") 150 rfl (by decide)⟩

/-- C8: `removeEffect(eventType, i)` with `i` a valid position of the current
sorted list removes exactly the element at position `i` (the result is
`take i ++ drop (i+1)`) and the list shrinks by exactly one. -/
theorem c8_removeEffect_exact (s : GDState) (t : String)
    (effs : List GameEffect) (i : Nat)
    (h : alGet t s.effects = some effs) (hi : i < effs.length) :
    alGet t (GameDin.removeEffect t i s).effects
        = some (effs.take i ++ effs.drop (i + 1))
      ∧ (effs.take i ++ effs.drop (i + 1)).length = effs.length - 1 := by
  constructor
  · unfold GameDin.removeEffect
    rw [h]
    simp only [hi, if_true]
    exact alGet_alSet_self _ _ _
  · rw [List.length_append, List.length_take, List.length_drop]
    omega

/-- C8 witness: removing index 0 from the two-element "J" registry leaves
exactly the former second element, and the size drops from 2 to 1. -/
theorem c8_removeEffect_exact_witness :
    alGet ("J") (GameDin.removeEffect ("J") 0 exRegistryState).effects
        = some ([exEffHigh, exEffLow].take 0 ++ [exEffHigh, exEffLow].drop 1)
      ∧ ([exEffHigh, exEffLow].take 0 ++ [exEffHigh, exEffLow].drop 1).length
        = [exEffHigh, exEffLow].length - 1 :=
  c8_removeEffect_exact exRegistryState ("J") [exEffHigh, exEffLow] 0 rfl
    (by decide)

/-- C9: a `syncAll` tick that finds `isSyncing` set returns before performing
any sync step and leaves the whole state unchanged (nothing is queued), and
the `finally` clause clears `isSyncing` when a tick finishes, whether its body
succeeded or threw. -/
theorem c9_sync_guard :
    (∀ s : SyncState, s.isSyncing = true →
      ProfileSync.syncAllEnter s = (s, false))
  ∧ (∀ (ok : Bool) (s : SyncState),
      (ProfileSync.syncAllFinish ok s).isSyncing = false) := by
  constructor
  · intro s hs
    simp [ProfileSync.syncAllEnter, hs]
  · intro ok s
    simp [ProfileSync.syncAllFinish]

/-- C9 witness: a tick arriving while `exSyncBusy` is syncing is skipped with
the state (including the count of bodies begun) untouched, and finishing a
failed tick clears the flag. -/
theorem c9_sync_guard_witness :
    ProfileSync.syncAllEnter exSyncBusy = (exSyncBusy, false)
      ∧ (ProfileSync.syncAllFinish false exSyncBusy).isSyncing = false :=
  ⟨c9_sync_guard.1 exSyncBusy rfl, c9_sync_guard.2 false exSyncBusy⟩

/-- C10: `getDevices` carries no initialization guard and succeeds on an
uninitialized adapter whenever the transport does, `initialize` relies on it
for its connectivity check and raises `isInitialized` on success, while
`getDevice` and `executeCommand` on an uninitialized adapter fail with
`NOT_INITIALIZED` before any network call or cache mutation (in this model an
error result leaves the state untouched by construction). -/
theorem c10_initialization_guards :
    (∀ (s : GoveeState) (devs : List (String × DeviceState)),
      s.isInitialized = false →
      ∃ (s' : GoveeState) (out : List (String × DeviceState)),
        Govee.getDevices (some devs) s = .ok (s', out))
  ∧ (∀ (s : GoveeState) (fetch : Option (List (String × DeviceState)))
        (deviceId : String), s.isInitialized = false →
      Govee.getDevice fetch deviceId s = .error .notInitialized)
  ∧ (∀ (s : GoveeState) (sendOk : Bool) (cmd : LightCommand),
      s.isInitialized = false →
      Govee.executeCommand sendOk cmd s = .error .notInitialized)
  ∧ (∀ (s : GoveeState) (devs : List (String × DeviceState)),
      s.isInitialized = false →
      ∃ s' : GoveeState,
        Govee.initAdapter (some devs) s = .ok s' ∧ s'.isInitialized = true) := by
  refine ⟨?_, ?_, ?_, ?_⟩
  · intro s devs _
    exact ⟨_, _, rfl⟩
  · intro s fetch deviceId hs
    simp [Govee.getDevice, hs]
  · intro s sendOk cmd hs
    simp [Govee.executeCommand, hs]
  · intro s devs hs
    refine ⟨{ isInitialized := true,
              devices := devs.foldl (fun c p => alSet p.1 p.2 c) s.devices },
      ?_, rfl⟩
    simp [Govee.initAdapter, hs, Govee.getDevices]

/-- C10 witness: on the uninitialized adapter, `getDevices` succeeds,
`initialize` succeeds through it, and `getDevice`/`executeCommand` fail with
`NOT_INITIALIZED`. -/
theorem c10_initialization_guards_witness :
    (∃ (s' : GoveeState) (out : List (String × DeviceState)),
      Govee.getDevices (some [("X", exDev1)]) exGoveeUninit = .ok (s', out))
  ∧ Govee.getDevice none ("X") exGoveeUninit = .error .notInitialized
  ∧ Govee.executeCommand true exCmdB exGoveeUninit = .error .notInitialized
  ∧ ∃ s' : GoveeState,
      Govee.initAdapter (some [("X", exDev1)]) exGoveeUninit = .ok s'
        ∧ s'.isInitialized = true :=
  ⟨c10_initialization_guards.1 exGoveeUninit [("X", exDev1)] rfl,
   c10_initialization_guards.2.1 exGoveeUninit none ("X") rfl,
   c10_initialization_guards.2.2.1 exGoveeUninit true exCmdB rfl,
   c10_initialization_guards.2.2.2 exGoveeUninit [("X", exDev1)] rfl⟩


/-- C2: effect selection boils down to the first condition-match of the
registry list kept stably sorted in descending priority by `addEffect`
(`effects.find(eff => !eff.condition || eff.condition(event))` over the array
re-sorted on every `addEffect`): the selected effect always has maximal
priority among the matching registered effects; with exactly two matching
effects of priorities p1 > p2, the p1 effect is selected under either
registration order; and an equal-priority tie goes to the earlier-registered
effect (stable sort). -/
theorem c2_priority_selection :
    (∀ (es : List GameEffect) (ev : GameEvent) (sel : GameEffect),
      (registryList es).find? (fun e => effMatches e ev) = some sel →
      sel ∈ es ∧ effMatches sel ev = true ∧
        ∀ e ∈ es, effMatches e ev = true → effPrio e ≤ effPrio sel)
  ∧ (∀ (e1 e2 : GameEffect) (ev : GameEvent),
      effMatches e1 ev = true → effMatches e2 ev = true →
      effPrio e2 < effPrio e1 →
      (registryList [e1, e2]).find? (fun e => effMatches e ev) = some e1 ∧
      (registryList [e2, e1]).find? (fun e => effMatches e ev) = some e1)
  ∧ (∀ (e1 e2 : GameEffect) (ev : GameEvent),
      effMatches e1 ev = true → effMatches e2 ev = true →
      effPrio e1 = effPrio e2 →
      (registryList [e1, e2]).find? (fun e => effMatches e ev) = some e1) := by
  refine ⟨?_, ?_, ?_⟩
  · intro es ev sel hfind
    have hmem : sel ∈ registryList es := List.mem_of_find?_eq_some hfind
    have hmatch : effMatches sel ev = true := by
      have := List.find?_some hfind
      simpa using this
    refine ⟨(GameDin.perm_registryList es).subset hmem, hmatch, ?_⟩
    intro e he hpe
    exact GameDin.find_max_of_sorted _ _ (GameDin.sorted_registryList es) _ hfind
      e ((GameDin.perm_registryList es).symm.subset he) hpe
  · intro e1 e2 ev hm1 hm2 hlt
    have h12 : registryList [e1, e2] = [e1, e2] := by
      simp [registryList, addEffectList, sortEffectsDesc, insertEffDesc,
        le_of_lt hlt]
    have h21 : registryList [e2, e1] = [e1, e2] := by
      simp [registryList, addEffectList, sortEffectsDesc, insertEffDesc,
        not_le.mpr hlt]
    rw [h12, h21]
    constructor <;> exact List.find?_cons_of_pos _ hm1
  · intro e1 e2 ev hm1 hm2 heq
    have h12 : registryList [e1, e2] = [e1, e2] := by
      simp [registryList, addEffectList, sortEffectsDesc, insertEffDesc,
        le_of_eq heq.symm]
    rw [h12]
    exact List.find?_cons_of_pos _ hm1

/-- C2 witness: with the two always-matching "J" effects of priorities 5 > 1,
both registration orders select the priority-5 effect, and the general part
reports it as a maximal-priority match. -/
theorem c2_priority_selection_witness :
    ((registryList [exEffHigh, exEffLow]).find?
        (fun e => effMatches e { etype := "J" }) = some exEffHigh
      ∧ (registryList [exEffLow, exEffHigh]).find?
        (fun e => effMatches e { etype := "J" }) = some exEffHigh)
    ∧ (exEffHigh ∈ [exEffHigh, exEffLow]
        ∧ effMatches exEffHigh { etype := "J" } = true
        ∧ ∀ e ∈ [exEffHigh, exEffLow],
            effMatches e { etype := "J" } = true → effPrio e ≤ effPrio exEffHigh) :=
  ⟨c2_priority_selection.2.1 exEffHigh exEffLow { etype := "J" } rfl rfl
      (by decide),
   c2_priority_selection.1 [exEffHigh, exEffLow] { etype := "J" } exEffHigh
      ((c2_priority_selection.2.1 exEffHigh exEffLow { etype := "J" } rfl rfl
        (by decide)).1)⟩

/-- C6: `LightManager.executeCommand` succeeds whenever some registered
adapter recognises the device and some registered adapter executes the
command without error, regardless of earlier adapters throwing; its
`Device not found` error occurs only when no adapter recognises the id; and
its top-level "No adapter could handle the command" error occurs only after
every adapter has been tried and has failed. -/
theorem c6_lightmanager_routing :
    (∀ (adapters : List AdapterM) (cmd : LightCommand),
      (∃ a ∈ adapters, ∃ d, a.getDev cmd.deviceId = .ok (some d)) →
      (∃ b ∈ adapters, b.exec cmd = .ok ()) →
      LightMgr.executeCommand adapters cmd = .ok ())
  ∧ (∀ (adapters : List AdapterM) (cmd : LightCommand),
      LightMgr.executeCommand adapters cmd = .error .deviceNotFound →
      ∀ a ∈ adapters, ∀ d, a.getDev cmd.deviceId ≠ .ok (some d))
  ∧ (∀ (adapters : List AdapterM) (cmd : LightCommand),
      LightMgr.executeCommand adapters cmd = .error .noAdapterCouldHandle →
      ∀ a ∈ adapters, ∀ u, a.exec cmd ≠ .ok u) := by
  have hget : ∀ (adapters : List AdapterM) (id : String),
      (∃ a ∈ adapters, ∃ d, a.getDev id = .ok (some d)) →
      ∃ d, LightMgr.getDevice adapters id = some d := by
    intro adapters id h
    induction adapters with
    | nil => rcases h with ⟨a, ha, _⟩; simp at ha
    | cons a0 rest ih =>
      rcases h with ⟨a, ha, d, hd⟩
      rcases List.mem_cons.mp ha with h1 | h2
      · subst h1
        rw [LightMgr.getDevice, hd]
        exact ⟨d, rfl⟩
      · cases hh : a0.getDev id with
        | ok o =>
          cases o with
          | some d0 => exact ⟨d0, by rw [LightMgr.getDevice, hh]⟩
          | none =>
            rcases ih ⟨a, h2, d, hd⟩ with ⟨d1, hd1⟩
            exact ⟨d1, by rw [LightMgr.getDevice, hh]; exact hd1⟩
        | error e =>
          rcases ih ⟨a, h2, d, hd⟩ with ⟨d1, hd1⟩
          exact ⟨d1, by rw [LightMgr.getDevice, hh]; exact hd1⟩
  have htry : ∀ (adapters : List AdapterM) (cmd : LightCommand),
      (∃ b ∈ adapters, b.exec cmd = .ok ()) →
      LightMgr.tryAdapters adapters cmd = .ok () := by
    intro adapters cmd h
    induction adapters with
    | nil => rcases h with ⟨b, hb, _⟩; simp at hb
    | cons a0 rest ih =>
      rcases h with ⟨b, hb, hexec⟩
      cases hh : a0.exec cmd with
      | ok u => rw [LightMgr.tryAdapters, hh]
      | error e =>
        rcases List.mem_cons.mp hb with h1 | h2
        · subst h1
          rw [hexec] at hh
          exact absurd hh (by simp)
        · rw [LightMgr.tryAdapters, hh]
          exact ih ⟨b, h2, hexec⟩
  have hgetnone : ∀ (adapters : List AdapterM) (id : String),
      LightMgr.getDevice adapters id = none →
      ∀ a ∈ adapters, ∀ d, a.getDev id ≠ .ok (some d) := by
    intro adapters id h
    induction adapters with
    | nil => intro a ha; simp at ha
    | cons a0 rest ih =>
      intro a ha d hd
      rcases List.mem_cons.mp ha with h1 | h2
      · subst h1
        rw [LightMgr.getDevice, hd] at h
        exact absurd h (by simp)
      · cases hh : a0.getDev id with
        | ok o =>
          cases o with
          | some d0 =>
            rw [LightMgr.getDevice, hh] at h
            exact absurd h (by simp)
          | none =>
            rw [LightMgr.getDevice, hh] at h
            exact ih h a h2 d hd
        | error e =>
          rw [LightMgr.getDevice, hh] at h
          exact ih h a h2 d hd
  have htryerr : ∀ (adapters : List AdapterM) (cmd : LightCommand) (e : LMErr),
      LightMgr.tryAdapters adapters cmd = .error e →
      ∀ a ∈ adapters, ∀ u, a.exec cmd ≠ .ok u := by
    intro adapters cmd e h
    induction adapters with
    | nil => intro a ha; simp at ha
    | cons a0 rest ih =>
      intro a ha u hu
      rcases List.mem_cons.mp ha with h1 | h2
      · subst h1
        rw [LightMgr.tryAdapters, hu] at h
        exact absurd h (by simp)
      · cases hh : a0.exec cmd with
        | ok u0 =>
          rw [LightMgr.tryAdapters, hh] at h
          exact absurd h (by simp)
        | error e0 =>
          rw [LightMgr.tryAdapters, hh] at h
          exact ih h a h2 u hu
  have htrynotdnf : ∀ (adapters : List AdapterM) (cmd : LightCommand),
      LightMgr.tryAdapters adapters cmd ≠ .error .deviceNotFound := by
    intro adapters cmd
    induction adapters with
    | nil => simp [LightMgr.tryAdapters]
    | cons a0 rest ih =>
      rw [LightMgr.tryAdapters]
      cases hh : a0.exec cmd with
      | ok u => simp
      | error e => exact ih
  refine ⟨?_, ?_, ?_⟩
  · intro adapters cmd hrec hexec
    rcases hget adapters cmd.deviceId hrec with ⟨d, hd⟩
    rw [LightMgr.executeCommand, hd]
    exact htry adapters cmd hexec
  · intro adapters cmd h
    rw [LightMgr.executeCommand] at h
    cases hd : LightMgr.getDevice adapters cmd.deviceId with
    | none => exact hgetnone adapters cmd.deviceId hd
    | some d =>
      rw [hd] at h
      exact absurd h (htrynotdnf adapters cmd)
  · intro adapters cmd h
    rw [LightMgr.executeCommand] at h
    cases hd : LightMgr.getDevice adapters cmd.deviceId with
    | none =>
      rw [hd] at h
      exact absurd h (by simp)
    | some d =>
      rw [hd] at h
      exact htryerr adapters cmd _ h

/-- C6 witness: adapter A throws on every call, adapter B owns `devB` and
executes the command; routing through [A, B] succeeds. -/
theorem c6_lightmanager_routing_witness :
    LightMgr.executeCommand [exAdapterA, exAdapterB] exCmdB = .ok () :=
  c6_lightmanager_routing.1 [exAdapterA, exAdapterB] exCmdB
    ⟨exAdapterB, by simp, exDev1, by rfl⟩
    ⟨exAdapterB, by simp, by rfl⟩


/-- C3: per-device uniqueness and single-shot restoration.  In every
reachable dispatcher state the `deviceStates` and `activeEffects` maps bind
each device at most once (unique keys); applying a matched effect always
replaces the device's pending timer — the result holds exactly the new timer
when the command succeeded and the effect has a positive duration, and none
otherwise; a failed application changes no world state (so the cancellation
step itself restores nothing); an existing snapshot is never overwritten by a
later effect; a fired timer is consumed, so at most one restoration fires per
apply-cycle; and firing with no pending timer is a no-op (no double
restore). -/
theorem c3_single_snapshot_timer :
    (∀ s : GDState, GameDin.Reachable s →
      (alKeys s.deviceStates).Nodup ∧ (alKeys s.activeEffects).Nodup)
  ∧ (∀ (ok : Bool) (ev : GameEvent) (effs : List GameEffect)
        (dev : String × DeviceState) (s : GDState) (e : GameEffect),
      effs.find? (fun x => effMatches x ev) = some e →
      alGet dev.1 (GameDin.applyEffectsToDevice ok ev effs dev s).activeEffects
        = (if ok && effHasTimer e then some e.restorePreviousState else none))
  ∧ (∀ (ev : GameEvent) (effs : List GameEffect) (dev : String × DeviceState)
        (s : GDState),
      (GameDin.applyEffectsToDevice false ev effs dev s).world = s.world)
  ∧ (∀ (ok : Bool) (ev : GameEvent) (effs : List GameEffect)
        (dev : String × DeviceState) (s : GDState) (σ : SavedSnapshot),
      alGet dev.1 s.deviceStates = some σ →
      alGet dev.1 (GameDin.applyEffectsToDevice ok ev effs dev s).deviceStates
        = some σ)
  ∧ (∀ (colorOk brightOk : Bool) (d : String) (s : GDState),
      alGet d (GameDin.fireTimer colorOk brightOk d s).activeEffects = none)
  ∧ (∀ (colorOk brightOk : Bool) (d : String) (s : GDState),
      alGet d s.activeEffects = none →
      GameDin.fireTimer colorOk brightOk d s = s) := by
  refine ⟨?_, ?_, ?_, ?_, ?_, ?_⟩
  · intro s hs
    induction hs with
    | init w => exact ⟨List.nodup_nil, List.nodup_nil⟩
    | add e s hs ih =>
      rw [GameDin.addEffect_deviceStates, GameDin.addEffect_activeEffects]
      exact ih
    | remove t i s hs ih =>
      rw [GameDin.removeEffect_deviceStates, GameDin.removeEffect_activeEffects]
      exact ih
    | handle ok ev s hs ih =>
      exact GameDin.handleEvent_nodup ok ev s ih.1 ih.2
    | fire colorOk brightOk d s hs ih =>
      exact ⟨GameDin.fireTimer_deviceStates_nodup colorOk brightOk d s ih.1,
        GameDin.fireTimer_activeEffects_nodup colorOk brightOk d s ih.2⟩
    | disposed s hs ih => exact ⟨List.nodup_nil, List.nodup_nil⟩
  · intro ok ev effs dev s e hf
    exact GameDin.applyEffects_activeEffects_some ok ev effs dev s e hf
  · intro ev effs dev s
    exact GameDin.applyEffects_world_false ev effs dev s
  · intro ok ev effs dev s σ hσ
    exact GameDin.applyEffects_deviceStates_preserved ok ev effs dev s dev.1 σ hσ
  · intro colorOk brightOk d s
    exact GameDin.fireTimer_activeEffects colorOk brightOk d s
  · intro colorOk brightOk d s h
    exact GameDin.fireTimer_noTimer colorOk brightOk d s h

/-- C3 witness: the invariants evaluated on the concrete reachable state
`exApplied` (registered effect, one successful event) and on its applying
step: unique keys, the old timer replaced by the new one, no world change on
failure, snapshot preserved, timers consumed by firing and absent timers
firing as no-ops. -/
theorem c3_single_snapshot_timer_witness :
    ((alKeys exApplied.deviceStates).Nodup ∧ (alKeys exApplied.activeEffects).Nodup)
  ∧ alGet ("d1")
      (GameDin.applyEffectsToDevice true { etype := "V" } [exVictoryEffect]
        ("d1", exDev1) exApplied).activeEffects
      = (if true && effHasTimer exVictoryEffect then
          some exVictoryEffect.restorePreviousState
        else none)
  ∧ (GameDin.applyEffectsToDevice false { etype := "V" } [exVictoryEffect]
      ("d1", exDev1) exApplied).world = exApplied.world
  ∧ alGet ("d1")
      (GameDin.applyEffectsToDevice true { etype := "V" } [exVictoryEffect]
        ("d1", exDev1) exApplied).deviceStates
      = some { color := some ("#FFFFFF"), brightness := some 80 }
  ∧ alGet ("d1") (GameDin.fireTimer true true ("d1") exApplied).activeEffects
      = none
  ∧ GameDin.fireTimer true true ("d1") exInit = exInit :=
  ⟨c3_single_snapshot_timer.1 exApplied
      (GameDin.Reachable.handle (fun _ => true) { etype := "V" } _
        (GameDin.Reachable.add exVictoryEffect _
          (GameDin.Reachable.init [("d1", exDev1)]))),
   c3_single_snapshot_timer.2.1 true { etype := "V" } [exVictoryEffect]
      ("d1", exDev1) exApplied exVictoryEffect rfl,
   c3_single_snapshot_timer.2.2.1 { etype := "V" } [exVictoryEffect]
      ("d1", exDev1) exApplied,
   c3_single_snapshot_timer.2.2.2.1 true { etype := "V" } [exVictoryEffect]
      ("d1", exDev1) exApplied { color := some ("#FFFFFF"), brightness := some 80 }
      (by decide),
   c3_single_snapshot_timer.2.2.2.2.1 true true ("d1") exApplied,
   c3_single_snapshot_timer.2.2.2.2.2 true true ("d1") exInit rfl⟩


/-- C4 counterexample: `deviceStates.delete(deviceId)` sits inside
`restoreDeviceState`'s `try`, after the reissued commands; on the concrete
run `exFailedRestore` — snapshot `{color: "#FFFFFF", brightness: 80}` for
`d1`, timer fired with the reissued `setColor` throwing — the snapshot is NOT
deleted, refuting the claim that it is discarded regardless of whether the
reissued commands succeed. -/
theorem c4_counterexample :
    ¬ (alGet ("d1") exFailedRestore.deviceStates = none) := by decide

/-- C4 amended: when the restoration timer fires with `restorePreviousState`,
the snapshot is deleted only if every reissued command succeeds; when a
reissue throws, the failure is only logged — the snapshot is retained — and in
either case the timer handle is cleared and no retry timer is scheduled, so a
failed restoration is never retried. -/
theorem c4_snapshot_discard_on_success_only (d : String) (s : GDState)
    (σ : SavedSnapshot) (ht : alGet d s.activeEffects = some true)
    (hσ : alGet d s.deviceStates = some σ) :
    (alGet d (GameDin.fireTimer true true d s).deviceStates = none
      ∧ alGet d (GameDin.fireTimer true true d s).activeEffects = none)
    ∧ (∀ (c : String) (brightOk : Bool), σ.color = some c →
        alGet d (GameDin.fireTimer false brightOk d s).deviceStates = some σ
        ∧ alGet d (GameDin.fireTimer false brightOk d s).activeEffects = none) := by
  constructor
  · constructor
    · rw [GameDin.fireTimer_restoring true true d s ht]
      show alGet d (GameDin.restoreDeviceState true true d s).deviceStates = none
      rw [GameDin.restoreDeviceState_success_deviceStates d s σ hσ]
      exact alGet_alDelete_self _ _
    · exact GameDin.fireTimer_activeEffects true true d s
  · intro c brightOk hc
    constructor
    · rw [GameDin.fireTimer_restoring false brightOk d s ht]
      show alGet d (GameDin.restoreDeviceState false brightOk d s).deviceStates
        = some σ
      rw [GameDin.restore_color_failure brightOk d s σ c hσ hc]
      exact hσ
    · exact GameDin.fireTimer_activeEffects false brightOk d s

/-- C4 amended witness: on the concrete applied state, a fully successful
fire deletes the snapshot and clears the timer, while a fire whose `setColor`
reissue throws keeps the snapshot and still clears the timer without
scheduling a retry. -/
theorem c4_snapshot_discard_on_success_only_witness :
    (alGet ("d1") (GameDin.fireTimer true true ("d1") exApplied).deviceStates = none
      ∧ alGet ("d1") (GameDin.fireTimer true true ("d1") exApplied).activeEffects
        = none)
    ∧ (∀ (c : String) (brightOk : Bool),
        SavedSnapshot.color { color := some ("#FFFFFF"), brightness := some 80 }
          = some c →
        alGet ("d1") (GameDin.fireTimer false brightOk ("d1") exApplied).deviceStates
          = some { color := some ("#FFFFFF"), brightness := some 80 }
        ∧ alGet ("d1")
            (GameDin.fireTimer false brightOk ("d1") exApplied).activeEffects
          = none) :=
  c4_snapshot_discard_on_success_only ("d1") exApplied
    { color := some ("#FFFFFF"), brightness := some 80 } (by decide) (by decide)


/-- C5 counterexample: in `applyEffectsToDevice` the `setTimeout` follows the
awaited `executeCommand` inside the same `try`, so when the command for a
device throws, the restoration timer for that device is NOT scheduled.  On
the concrete run `exPartialFail` (restorable victory effect with positive
duration; the command for `d1` throws, the one for `d2` succeeds) no timer
exists for `d1`, refuting the claim that a command failure never aborts the
scheduling of the restoration timer for the failed device. -/
theorem c5_counterexample :
    ¬ ((alGet ("d1") exPartialFail.activeEffects).isSome = true) := by decide

/-- C5 amended: during `handleEvent`, a failure of the effect's command for
one device is caught and logged and never aborts processing of the remaining
sibling devices — the sibling's command is applied and its timer scheduled —
and the snapshot for the failed device is still captured (it is stored before
the `try`); but the restoration timer for the device whose command failed is
not scheduled, because the `setTimeout` is skipped when `executeCommand`
throws. -/
theorem c5_sibling_isolation (d1 d2 : String) (ds1 ds2 : DeviceState)
    (E : GameEffect) (effs : List GameEffect) (ev : GameEvent) (s : GDState)
    (ok : String → Bool)
    (hw : s.world = [(d1, ds1), (d2, ds2)]) (hne : d1 ≠ d2)
    (he : (alGet ev.etype s.effects).getD [] = effs)
    (hf : effs.find? (fun x => effMatches x ev) = some E)
    (hok1 : ok d1 = false) (hok2 : ok d2 = true)
    (hsnap1 : alGet d1 s.deviceStates = none)
    (hE : E.restorePreviousState = true) (hT : effHasTimer E = true) :
    alGet d2 (GameDin.handleEvent ok ev s).world
        = some (applyCmdRec (withDevice E.command d2) ds2)
      ∧ alGet d2 (GameDin.handleEvent ok ev s).activeEffects = some true
      ∧ alGet d1 (GameDin.handleEvent ok ev s).world = some ds1
      ∧ alGet d1 (GameDin.handleEvent ok ev s).activeEffects = none
      ∧ alGet d1 (GameDin.handleEvent ok ev s).deviceStates
        = some { color := ds1.color, brightness := ds1.brightness } := by
  have hne2 : d2 ≠ d1 := fun hh => hne hh.symm
  have hnil : effs ≠ [] := by
    intro hh
    rw [hh] at hf
    simp at hf
  have hemp : effs.isEmpty = false := by
    cases effs with
    | nil => exact absurd rfl hnil
    | cons a t => rfl
  have hrun : GameDin.handleEvent ok ev s =
      GameDin.applyEffectsToDevice (ok d2) ev effs (d2, ds2)
        (GameDin.applyEffectsToDevice (ok d1) ev effs (d1, ds1) s) := by
    unfold GameDin.handleEvent
    simp [he, hw, hemp, List.foldl]
  rw [hrun, hok1, hok2]
  set s1 := GameDin.applyEffectsToDevice false ev effs (d1, ds1) s with hs1
  have hw1 : s1.world = s.world := GameDin.applyEffects_world_false ev effs _ s
  have hgd1 : alGet d1 s.world = some ds1 := by
    rw [hw]
    simp [alGet]
  have hgd2 : alGet d2 s.world = some ds2 := by
    rw [hw]
    simp [alGet, hne]
  refine ⟨?_, ?_, ?_, ?_, ?_⟩
  · rw [GameDin.applyEffects_world_true ev effs (d2, ds2) s1 E hf,
      applyCmdToWorld]
    have : (withDevice E.command d2).deviceId = d2 := rfl
    rw [this, alGet_alUpdate_self, hw1, hgd2]
    rfl
  · rw [GameDin.applyEffects_activeEffects_some true ev effs (d2, ds2) s1 E hf]
    simp [hT, hE]
  · rw [GameDin.applyEffects_world_other true ev effs (d2, ds2) s1 d1 hne,
      hw1, hgd1]
  · rw [GameDin.applyEffects_activeEffects_other true ev effs (d2, ds2) s1 d1 hne,
      GameDin.applyEffects_activeEffects_some false ev effs (d1, ds1) s E hf]
    simp
  · have hstep1 : alGet d1 s1.deviceStates
        = some { color := ds1.color, brightness := ds1.brightness } := by
      rw [hs1, GameDin.applyEffects_deviceStates_some false ev effs (d1, ds1) s
        E hf]
      rw [hsnap1]
      simp [hE, alGet_alSet_self]
    exact GameDin.applyEffects_deviceStates_preserved true ev effs (d2, ds2) s1
      d1 _ hstep1

/-- C5 amended witness: the concrete two-device run `exPartialFail` — the
sibling `d2` got its command and timer, `d1` kept its world state and
snapshot but received no timer. -/
theorem c5_sibling_isolation_witness :
    alGet ("d2") exPartialFail.world
        = some (applyCmdRec (withDevice exVictoryEffect.command ("d2")) exDev2)
      ∧ alGet ("d2") exPartialFail.activeEffects = some true
      ∧ alGet ("d1") exPartialFail.world = some exDev1
      ∧ alGet ("d1") exPartialFail.activeEffects = none
      ∧ alGet ("d1") exPartialFail.deviceStates
        = some { color := exDev1.color, brightness := exDev1.brightness } :=
  c5_sibling_isolation ("d1") ("d2") exDev1 exDev2 exVictoryEffect
    [exVictoryEffect] { etype := "V" }
    (GameDin.addEffect exVictoryEffect exTwoInit) (fun id => id == ("d2"))
    rfl (by decide) rfl rfl (by decide) (by decide) rfl rfl (by decide)


/-- C1: for a device with both fields known, applying a restorable effect via
`handleEvent` (followed by any run of replacement events) and letting the
pending restoration timer fire reissues exactly `setColor` then
`setBrightness` from the snapshot taken before the FIRST restorable effect —
not the state before any intervening replacement — leaving the device's color
and brightness at the snapshot values, with the snapshot deleted and the
timer cleared; and a field undefined at snapshot time is never reissued (with
`brightness` absent only `setColor` is reissued and the device's brightness is
left untouched by the restoration). -/
theorem c1_restoration_roundtrip :
    (∀ (d : String) (ds0 : DeviceState) (s0 : GDState) (ev0 : GameEvent)
        (effs0 : List GameEffect) (e0 : GameEffect) (ok0 : String → Bool)
        (mids : List (GameEvent × (String → Bool))) (c : String) (b : Int),
      alGet d s0.deviceStates = none →
      s0.world = [(d, ds0)] →
      (alGet ev0.etype s0.effects).getD [] = effs0 →
      effs0.find? (fun e => effMatches e ev0) = some e0 →
      e0.restorePreviousState = true →
      ds0.color = some c → ds0.brightness = some b → 0 ≤ b → b ≤ 100 →
      ∀ sMid : GDState,
        sMid = GameDin.runEvents mids (GameDin.handleEvent ok0 ev0 s0) →
        alGet d sMid.activeEffects = some true →
        (alGet d (GameDin.fireTimer true true d sMid).world).map DeviceState.color
            = some (some c)
        ∧ (alGet d (GameDin.fireTimer true true d sMid).world).map
            DeviceState.brightness = some (some b)
        ∧ (GameDin.fireTimer true true d sMid).sent
            = sMid.sent ++ [setColorCmd d c, setBrightnessCmd d b]
        ∧ alGet d (GameDin.fireTimer true true d sMid).deviceStates = none
        ∧ alGet d (GameDin.fireTimer true true d sMid).activeEffects = none)
  ∧ (∀ (d : String) (ds0 : DeviceState) (s0 : GDState) (ev0 : GameEvent)
        (effs0 : List GameEffect) (e0 : GameEffect) (ok0 : String → Bool)
        (mids : List (GameEvent × (String → Bool))) (c : String),
      alGet d s0.deviceStates = none →
      s0.world = [(d, ds0)] →
      (alGet ev0.etype s0.effects).getD [] = effs0 →
      effs0.find? (fun e => effMatches e ev0) = some e0 →
      e0.restorePreviousState = true →
      ds0.color = some c → ds0.brightness = none →
      ∀ sMid : GDState,
        sMid = GameDin.runEvents mids (GameDin.handleEvent ok0 ev0 s0) →
        alGet d sMid.activeEffects = some true →
        (GameDin.fireTimer true true d sMid).sent = sMid.sent ++ [setColorCmd d c]
        ∧ (alGet d (GameDin.fireTimer true true d sMid).world).map
            DeviceState.color = some (some c)
        ∧ (alGet d (GameDin.fireTimer true true d sMid).world).map
            DeviceState.brightness
          = (alGet d sMid.world).map DeviceState.brightness
        ∧ alGet d (GameDin.fireTimer true true d sMid).deviceStates = none) := by
  constructor
  · intro d ds0 s0 ev0 effs0 e0 ok0 mids c b h1 h2 h3 h4 h5 h6 h7 h8 h9
      sMid hsMid hTimer
    have hmid := GameDin.scenario_snapshot_persisted d ds0 s0 ev0 effs0 e0 ok0
      mids h1 h2 h3 h4 h5
    rw [← hsMid] at hmid
    rcases Option.isSome_iff_exists.mp hmid.2 with ⟨ds2, hds2⟩
    have hσc : SavedSnapshot.color
        { color := ds0.color, brightness := ds0.brightness } = some c := by
      simpa using h6
    have hσb : SavedSnapshot.brightness
        { color := ds0.color, brightness := ds0.brightness } = some b := by
      simpa using h7
    have hclamp : clamp100 b = b := by
      unfold clamp100
      omega
    have hrest := GameDin.restore_success_full d sMid _ c b hmid.1 hσc hσb
    have hfire := GameDin.fireTimer_restoring true true d sMid hTimer
    refine ⟨?_, ?_, ?_, ?_, ?_⟩
    · rw [hfire, GameDin.clearDeviceEffect_world, hrest.1]
      simp only [applyCmdToWorld, GameDin.deviceId_setColorCmd, GameDin.deviceId_setBrightnessCmd]
      rw [alGet_alUpdate_self, alGet_alUpdate_self, hds2]
      simp [GameDin.applyCmdRec_setColorCmd, GameDin.applyCmdRec_setBrightnessCmd]
    · rw [hfire, GameDin.clearDeviceEffect_world, hrest.1]
      simp only [applyCmdToWorld, GameDin.deviceId_setColorCmd, GameDin.deviceId_setBrightnessCmd]
      rw [alGet_alUpdate_self, alGet_alUpdate_self, hds2]
      simp [GameDin.applyCmdRec_setColorCmd, GameDin.applyCmdRec_setBrightnessCmd, hclamp]
    · rw [hfire, GameDin.clearDeviceEffect_sent, hrest.2.1]
    · rw [hfire, GameDin.clearDeviceEffect_deviceStates, hrest.2.2.1]
      exact alGet_alDelete_self _ _
    · exact GameDin.fireTimer_activeEffects true true d sMid
  · intro d ds0 s0 ev0 effs0 e0 ok0 mids c h1 h2 h3 h4 h5 h6 h7
      sMid hsMid hTimer
    have hmid := GameDin.scenario_snapshot_persisted d ds0 s0 ev0 effs0 e0 ok0
      mids h1 h2 h3 h4 h5
    rw [← hsMid] at hmid
    rcases Option.isSome_iff_exists.mp hmid.2 with ⟨ds2, hds2⟩
    have hσc : SavedSnapshot.color
        { color := ds0.color, brightness := ds0.brightness } = some c := by
      simpa using h6
    have hσb : SavedSnapshot.brightness
        { color := ds0.color, brightness := ds0.brightness } = none := by
      simpa using h7
    have hrest := GameDin.restore_success_color_only d sMid _ c hmid.1 hσc hσb
    have hfire := GameDin.fireTimer_restoring true true d sMid hTimer
    refine ⟨?_, ?_, ?_, ?_⟩
    · rw [hfire, GameDin.clearDeviceEffect_sent, hrest.2.1]
    · rw [hfire, GameDin.clearDeviceEffect_world, hrest.1]
      simp only [applyCmdToWorld, GameDin.deviceId_setColorCmd]
      rw [alGet_alUpdate_self, hds2]
      simp [GameDin.applyCmdRec_setColorCmd]
    · rw [hfire, GameDin.clearDeviceEffect_world, hrest.1]
      simp only [applyCmdToWorld, GameDin.deviceId_setColorCmd]
      rw [alGet_alUpdate_self, hds2]
      simp [GameDin.applyCmdRec_setColorCmd]
    · rw [hfire, GameDin.clearDeviceEffect_deviceStates, hrest.2.2.1]
      exact alGet_alDelete_self _ _

/-- C1 witness: on the concrete run `exC1Mid` — snapshot `#FFFFFF`/80 taken
by the first "V" event, one replacement "V" event in between — the successful
fire reissues exactly `setColor #FFFFFF` and `setBrightness 80` and restores
both fields; and on the brightness-less device only `setColor` is reissued. -/
theorem c1_restoration_roundtrip_witness :
    ((alGet ("d1") (GameDin.fireTimer true true ("d1") exC1Mid).world).map
        DeviceState.color = some (some ("#FFFFFF"))
      ∧ (alGet ("d1") (GameDin.fireTimer true true ("d1") exC1Mid).world).map
          DeviceState.brightness = some (some 80)
      ∧ (GameDin.fireTimer true true ("d1") exC1Mid).sent
        = exC1Mid.sent ++ [setColorCmd ("d1") ("#FFFFFF"),
            setBrightnessCmd ("d1") 80]
      ∧ alGet ("d1") (GameDin.fireTimer true true ("d1") exC1Mid).deviceStates
        = none
      ∧ alGet ("d1") (GameDin.fireTimer true true ("d1") exC1Mid).activeEffects
        = none)
    ∧ ((GameDin.fireTimer true true ("d1") exC1MidNB).sent
        = exC1MidNB.sent ++ [setColorCmd ("d1") ("#FFFFFF")]
      ∧ (alGet ("d1") (GameDin.fireTimer true true ("d1") exC1MidNB).world).map
          DeviceState.color = some (some ("#FFFFFF"))
      ∧ (alGet ("d1") (GameDin.fireTimer true true ("d1") exC1MidNB).world).map
          DeviceState.brightness
        = (alGet ("d1") exC1MidNB.world).map DeviceState.brightness
      ∧ alGet ("d1") (GameDin.fireTimer true true ("d1") exC1MidNB).deviceStates
        = none) :=
  ⟨c1_restoration_roundtrip.1 ("d1") exDev1 exC1Start { etype := "V" }
      [exVictoryEffect] exVictoryEffect (fun _ => true)
      [({ etype := "V" }, fun _ => true)] ("#FFFFFF") 80
      rfl rfl rfl rfl rfl rfl rfl (by decide) (by decide)
      exC1Mid rfl (by decide),
   c1_restoration_roundtrip.2 ("d1") exDevNoBright exC1StartNB { etype := "V" }
      [exVictoryEffect] exVictoryEffect (fun _ => true) [] ("#FFFFFF")
      rfl rfl rfl rfl rfl rfl rfl
      exC1MidNB rfl (by decide)⟩

end LuxSpec
